import Mathlib

/-!
Verification development for the `franks-candidate-concierge` repository.

The repository is a small resume question-answering service.  This file gives a
shallow embedding of the parts of the code that the specification's claims are
about:

* `src/src/models/qa_model.py` — the tiered resolver `answer_question` together
  with its structured rule matcher `_get_structured_answer` (embedded here as
  `qa_get_structured_answer`) and the predefined Q&A table;
* `src/app.py` — the standalone resolver `get_structured_answer` (embedded as
  `app_get_structured_answer`) with its pronoun normalizer;
* `src/src/models/response_templates.py` — the `ResponseFormatter` methods;
* `src/src/models/gpt_service.py` — `GPTService.get_completion`;
* `src/src/config/data_loader.py` — `_load_and_populate_data` /
  `get_resume_data`, both as a pure value-level function and as a heap-level
  function that makes Python's allocation and aliasing explicit;
* `src/src/models/database/operations.py` and `src/src/api/main.py` — the
  feedback storage path.

Python strings are modelled as `List Char`; the handful of Python string
methods the code uses (`lower`, `replace`, `strip`, `split`, `title`, the `in`
substring test, `startswith`) are defined below with Python's semantics.
Python floats in the code are exact decimal literals used only for comparison,
so they are modelled as rationals (`mkRat`).  Exceptions are modelled with
`Except`: a `try/except` block in the source becomes `pyTry`.
-/

/-- Python strings, modelled as lists of characters. -/
abbrev Str := List Char

/-- Turns a Lean string literal into the `Str` model. -/
def lit (s : String) : Str := s.data

/-- Python `s.lower()` (the code only feeds it ASCII text). -/
def pyLower (s : Str) : Str := s.map Char.toLower

/-- Python's substring test `needle in hay`. -/
def pyIn (needle hay : Str) : Bool := decide (needle <:+: hay)

/-- Python `s.startswith(pre)`. -/
def pyStartsWith (pre s : Str) : Bool := decide (pre <+: s)

/-- Python `s.strip()`: remove leading and trailing whitespace. -/
def pyStrip (s : Str) : Str :=
  ((s.dropWhile Char.isWhitespace).reverse.dropWhile Char.isWhitespace).reverse

/-- Fuel-indexed worker for `pyReplace`; the fuel dominates the scan position so
that the recursion is structural (any fuel at least `s.length` gives Python's
behaviour). -/
def pyReplaceAux (pat rep : Str) : Nat → Str → Str
  | _, [] => []
  | 0, s => s
  | fuel + 1, c :: rest =>
    match pat with
    | [] => c :: rest
    | p :: ps =>
      if (p :: ps).isPrefixOf (c :: rest) then
        rep ++ pyReplaceAux pat rep fuel ((c :: rest).drop (p :: ps).length)
      else
        c :: pyReplaceAux pat rep fuel rest

/-- Python `s.replace(pat, rep)`: leftmost, non-overlapping, all occurrences.
(The code never calls it with an empty pattern.) -/
def pyReplace (pat rep s : Str) : Str := pyReplaceAux pat rep s.length s

/-- Fuel-indexed worker for `pySplit` (structural recursion on the fuel). -/
def pySplitAux (sep : Str) : Nat → Str → List Str
  | _, [] => [[]]
  | 0, s => [s]
  | fuel + 1, c :: rest =>
    match sep with
    | [] => [c :: rest]
    | q :: qs =>
      if (q :: qs).isPrefixOf (c :: rest) then
        [] :: pySplitAux sep fuel ((c :: rest).drop (q :: qs).length)
      else
        match pySplitAux sep fuel rest with
        | [] => [[c]]
        | part :: parts => (c :: part) :: parts

/-- Python `s.split(sep)` for a non-empty separator. -/
def pySplit (sep s : Str) : List Str := pySplitAux sep s.length s

/-- Python `s.split(sep, 1)`, returned as (head, rest-if-any). -/
def pySplit1 (sep s : Str) : Str × Option Str :=
  match pySplit sep s with
  | [] => (s, none)
  | [x] => (x, none)
  | x :: xs => (x, some (joinSep xs))
where
  joinSep : List Str → Str
    | [] => []
    | [y] => y
    | y :: ys => y ++ sep ++ joinSep ys

/-- Python `sep.join(parts)`. -/
def pyJoin (sep : Str) : List Str → Str
  | [] => []
  | [x] => x
  | x :: xs => x ++ sep ++ pyJoin sep xs

/-- Fuel-indexed worker for `pyWords`. -/
def pyWordsAux : Nat → Str → List Str
  | _, [] => []
  | 0, s => [s]
  | fuel + 1, c :: rest =>
    if c.isWhitespace then pyWordsAux fuel rest
    else
      (c :: rest.takeWhile (fun d => ¬ d.isWhitespace)) ::
        pyWordsAux fuel (rest.dropWhile (fun d => ¬ d.isWhitespace))

/-- Python `s.split()` with no argument: split on whitespace runs, no empties. -/
def pyWords (s : Str) : List Str := pyWordsAux s.length s

/-- Worker for `pyTitle`; the flag records whether the previous character was
alphabetic. -/
def pyTitleAux : Bool → Str → Str
  | _, [] => []
  | prev, c :: rest =>
    (if c.isAlpha then (if prev then c.toLower else c.toUpper) else c) ::
      pyTitleAux c.isAlpha rest

/-- Python `s.title()` (on the ASCII category names the code feeds it). -/
def pyTitle (s : Str) : Str := pyTitleAux false s

/-- Python `any(term in q for term in terms)`. -/
def anyIn (terms : List Str) (q : Str) : Bool := terms.any (fun t => pyIn t q)

/-! ## The knowledge base

`src/src/models/qa_model.py` and `src/app.py` import `RESUME_DATA` from
`src.models.resume_data`, a module that is not present in the source tree (only
`resume_data_template.py` and the loader `data_loader.py` are).  The record
shape below is taken from the fields both resolvers access; the concrete value
`resumeData` further down is modelled from the spec and the template. -/

structure ContactInformation where
  name : Str
  location : Str
  email : Str
  linkedin : Str
deriving DecidableEq

structure Job where
  company : Str
  role : Str
  title : Str
  dates : Str
  status : Str
  responsibilities : List Str
  achievements : List Str
deriving DecidableEq

structure Certification where
  name : Str
  issuer : Str
  year_obtained : Str
  status : Str
deriving DecidableEq

structure SkillsAndTechnologies where
  cloud_and_net : List Str
  tools : List Str
  agile_and_scrum : List Str
  business_analysis : List Str
  soft_skills : List Str
  programming_languages : List Str
deriving DecidableEq

structure Education where
  university : Str
  degrees : List Str
  honors : Str
  graduation_year : Str
  additional_info : List Str
deriving DecidableEq

structure Achievement where
  achievement : Str
  tags : List Str
deriving DecidableEq

structure Project where
  name : Str
  status : Str
  completion_date : Str
  description : List Str
  achievements : List Str
  technologies_used : List Str
deriving DecidableEq

structure SalaryExpectations where
  target : Str
  negotiable : Str
  additional_notes : Str
deriving DecidableEq

structure JobSearchCriteria where
  desired_role : Str
  preferred_location : Str
  other_criteria : Str
deriving DecidableEq

structure ExperienceHighlights where
  total_ba_experience : Str
  scrum_master_experience : Str
  azure_experience : Str
  sql_experience : Str
deriving DecidableEq

structure KnowledgeBase where
  contact_information : ContactInformation
  professional_summary : List Str
  professional_experience : List Job
  certifications : List Certification
  skills_and_technologies : SkillsAndTechnologies
  education : Education
  languages : List Str
  salary_expectations : SalaryExpectations
  job_search_criteria : JobSearchCriteria
  experience_highlights : ExperienceHighlights
  key_achievements_summary : List Achievement
  projects : List Project
deriving DecidableEq

/-- The `skills_and_technologies` dict in template key order, as the Python dict
iterates it (insertion order). -/
def skillsDict (kb : KnowledgeBase) : List (Str × List Str) :=
  [(lit "cloud_and_net", kb.skills_and_technologies.cloud_and_net),
   (lit "tools", kb.skills_and_technologies.tools),
   (lit "agile_and_scrum", kb.skills_and_technologies.agile_and_scrum),
   (lit "business_analysis", kb.skills_and_technologies.business_analysis),
   (lit "soft_skills", kb.skills_and_technologies.soft_skills),
   (lit "programming_languages", kb.skills_and_technologies.programming_languages)]

/-- Modelled from the spec: `src/models/resume_data.py` is absent from the
source tree, so the concrete knowledge base is reconstructed from
`resume_data_template.py` (whose non-sensitive entries are concrete) with the
`ENV::` placeholders resolved to representative strings, `sql_experience`
(referenced by both resolvers but missing from the template) filled per the
spec's experience-highlights topic list, and no achievement tags (the template
carries none). -/
def resumeData : KnowledgeBase where
  contact_information :=
    { name := lit "Frank Tallerine"
      location := lit "Houston, Texas"
      email := lit "frank@example.com"
      linkedin := lit "linkedin.com/in/frank" }
  professional_summary :=
    [lit "Experienced Business Analyst and Scrum Master with expertise in Azure cloud solutions and data analytics",
     lit "Proven track record in stakeholder management, requirements gathering, and agile project delivery"]
  professional_experience :=
    [{ company := lit "The Marker Group"
       role := lit "Senior Business Analyst / Scrum Master"
       title := lit "Senior Business Analyst"
       dates := lit "2020 - Present"
       status := lit "Current"
       responsibilities :=
         [lit "Lead cross-functional teams in agile software development projects using Scrum methodology",
          lit "Gather and analyze business requirements, creating detailed documentation and user stories",
          lit "Facilitate sprint planning, daily standups, retrospectives, and stakeholder meetings"]
       achievements :=
         [lit "Successfully delivered 15+ projects on time and within budget",
          lit "Improved team velocity by 30% through process optimization and stakeholder alignment"] }]
  certifications :=
    [{ name := lit "Microsoft Azure Fundamentals"
       issuer := lit "Microsoft"
       year_obtained := lit "2023"
       status := lit "Active" },
     { name := lit "Certified Scrum Master"
       issuer := lit "Scrum Alliance"
       year_obtained := lit "2022"
       status := lit "Active" }]
  skills_and_technologies :=
    { cloud_and_net := [lit "Azure", lit ".NET"]
      tools := [lit "SQL", lit "Power BI", lit "Git", lit "Python"]
      agile_and_scrum := [lit "Agile", lit "Scrum", lit "Sprint planning"]
      business_analysis := [lit "Requirements gathering", lit "Stakeholder management"]
      soft_skills := [lit "Communication", lit "Problem solving"]
      programming_languages := [lit "Python", lit "JavaScript", lit "HTML", lit "CSS"] }
  education :=
    { university := lit "University of Technology"
      degrees := [lit "Bachelor of Science in Information Systems", lit "Master of Business Administration"]
      honors := lit "Magna Cum Laude"
      graduation_year := lit "2018"
      additional_info := [lit "Specialized in Business Analytics and Information Systems"] }
  languages := [lit "English (Native)", lit "Spanish (Conversational)"]
  salary_expectations :=
    { target := lit "competitive"
      negotiable := lit "yes"
      additional_notes := lit "open to discussion" }
  job_search_criteria :=
    { desired_role := lit "Senior Business Analyst / Scrum Master"
      preferred_location := lit "Houston, Texas"
      other_criteria := lit "Remote-friendly positions with growth opportunities" }
  experience_highlights :=
    { total_ba_experience := lit "6+ years in Business Analysis"
      scrum_master_experience := lit "4+ years as Certified Scrum Master"
      azure_experience := lit "3+ years with Azure cloud solutions"
      sql_experience := lit "5+ years with SQL" }
  key_achievements_summary :=
    [{ achievement := lit "Led digital transformation initiatives resulting in 40% efficiency improvement", tags := [] },
     { achievement := lit "Managed stakeholder relationships across 10+ departments and external vendors", tags := [] },
     { achievement := lit "Developed and implemented data governance frameworks for enterprise-level projects", tags := [] }]
  projects :=
    [{ name := lit "Healthcare AI Analytics Platform"
       status := lit "Completed"
       completion_date := lit "2024"
       description :=
         [lit "Led development of AI-powered analytics platform for healthcare data processing",
          lit "Implemented natural language processing for medical record analysis"]
       achievements :=
         [lit "Reduced data processing time by 60% and improved accuracy of medical insights"]
       technologies_used := [lit "Python", lit "spaCy", lit "Machine Learning"] }]

/-! ## ResponseFormatter (`src/src/models/response_templates.py`) -/

/-- One bullet line of `ResponseFormatter.format_skills`: skills containing
`" - "` are split once into a name and a description. -/
def format_skill_line (skill : Str) : Str :=
  if pyIn (lit " - ") skill then
    let parts := pySplit1 (lit " - ") skill
    lit "• " ++ parts.1 ++ lit ": " ++ parts.2.getD [] ++ lit "\n"
  else
    lit "• " ++ skill ++ lit "\n"

/-- `ResponseFormatter.format_certifications`.  Every certification record in
this model carries a `status`, so the `if 'status' in cert` guard of the source
is always taken. -/
def format_certifications (certs : List Certification) : Str :=
  if certs = [] then lit "No certifications found."
  else
    pyStrip (lit "Frank holds the following certifications:\n" ++
      (certs.map fun cert =>
        lit "• " ++ cert.name ++ lit " (" ++ cert.issuer ++ lit ", " ++
          cert.year_obtained ++ lit ")" ++ lit " — Status: " ++ cert.status ++ lit "\n").join)

/-- `ResponseFormatter.format_skills`; the category name goes through
`category.replace('_', ' ').title()` and empty categories are skipped. -/
def format_skills (skills : List (Str × List Str)) : Str :=
  if skills = [] then lit "No skills found."
  else
    pyStrip ((skills.map fun cat =>
      if cat.2 = [] then ([] : Str)
      else
        lit "\n" ++ pyTitle (pyReplace (lit "_") (lit " ") cat.1) ++ lit ":\n" ++
          (cat.2.map format_skill_line).join).join)

/-- `ResponseFormatter.format_experience`. -/
def format_experience (experience : List Job) : Str :=
  if experience = [] then lit "No professional experience found."
  else
    pyStrip (lit "Professional Experience:\n" ++
      (experience.map fun job =>
        lit "\n" ++ job.title ++ lit " at " ++ job.company ++ lit " (" ++ job.dates ++ lit ")\n" ++
        (if job.responsibilities = [] then ([] : Str)
         else lit "\nKey Responsibilities:\n" ++
           (job.responsibilities.map fun resp => lit "• " ++ resp ++ lit "\n").join) ++
        (if job.achievements = [] then ([] : Str)
         else lit "\nNotable Achievements:\n" ++
           (job.achievements.map fun ach => lit "• " ++ ach ++ lit "\n").join)).join)

/-- Body shared by the two non-error exits of `format_achievements`. -/
def format_achievements_body (achievements : List Achievement) : Str :=
  pyStrip (lit "Key Achievements:\n" ++
    (achievements.map fun a => lit "• " ++ a.achievement ++ lit "\n").join)

/-- `ResponseFormatter.format_achievements` with its optional tag filter; the
filter applies only when `filter_tags` is a truthy (non-empty) list, and tag
comparison is case-insensitive membership, exactly as in the source. -/
def format_achievements (achievements : List Achievement) (filterTags : Option (List Str)) : Str :=
  if achievements = [] then lit "No achievements found."
  else
    match filterTags with
    | some (t :: ts) =>
      let tags := t :: ts
      let filtered := achievements.filter fun a =>
        tags.any fun tag => (a.tags.map pyLower).contains (pyLower tag)
      if filtered = [] then
        lit "No achievements found matching tags: " ++ pyJoin (lit ", ") tags
      else format_achievements_body filtered
    | _ => format_achievements_body achievements

/-- `ResponseFormatter.format_education`.  The education argument is a record,
so the source's falsy-dict guard cannot fire and is omitted. -/
def format_education (education : Education) : Str :=
  pyStrip (lit "Education: " ++ pyJoin (lit " and ") education.degrees ++ lit "\n" ++
    lit "University: " ++ education.university ++ lit "\n" ++
    lit "Graduation: " ++ education.graduation_year ++ lit " (" ++ education.honors ++ lit ")\n" ++
    (if education.additional_info = [] then ([] : Str)
     else lit "\nAdditional Information:\n" ++
       (education.additional_info.map fun info => lit "• " ++ info ++ lit "\n").join))

/-- `ResponseFormatter.format_contact` (the contact argument is a record, so the
falsy-dict guard is omitted). -/
def format_contact (contact : ContactInformation) : Str :=
  pyStrip (lit "Contact Information:\n" ++
    lit "• Email: " ++ contact.email ++ lit "\n" ++
    lit "• LinkedIn: " ++ contact.linkedin ++ lit "\n" ++
    lit "• Location: " ++ contact.location ++ lit "\n")

/-- `ResponseFormatter.format_projects`. -/
def format_projects (projects : List Project) : Str :=
  if projects = [] then lit "No projects found."
  else
    pyStrip (lit "Projects:\n" ++
      (projects.map fun project =>
        lit "\n" ++ project.name ++ lit " (" ++ project.status ++ lit ", " ++
          project.completion_date ++ lit ")\n" ++
        (if project.description = [] then ([] : Str)
         else lit "\nDescription:\n" ++
           (project.description.map fun desc => lit "• " ++ desc ++ lit "\n").join) ++
        (if project.achievements = [] then ([] : Str)
         else lit "\nAchievements:\n" ++
           (project.achievements.map fun ach => lit "• " ++ ach ++ lit "\n").join) ++
        (if project.technologies_used = [] then ([] : Str)
         else lit "\nTechnologies Used:\n" ++
           lit "• " ++ pyJoin (lit ", ") project.technologies_used ++ lit "\n")).join)

/-- `ResponseFormatter.add_confidence_note`.  The `source` argument is unused by
the source method's body, as here. -/
def add_confidence_note (answer : Str) (confidence : ℚ) (source : Str) : Str :=
  if confidence ≥ mkRat 95 100 then
    answer ++ lit "\n\n(This answer is based on structured data.)"
  else if confidence ≥ mkRat 7 10 then
    answer ++ lit "\n\n(This answer is generated by AI and is likely accurate.)"
  else
    answer ++ lit "\n\n(This response has low confidence. Please verify details.)"

/-- `ResponseFormatter.format_salary_expectations` (record argument, falsy-dict
guard omitted; the `additional_notes` truthiness test is the non-empty test). -/
def format_salary_expectations (salary : SalaryExpectations) : Str :=
  pyStrip (lit "Salary Expectations:\n" ++
    lit "• Target: " ++ salary.target ++ lit "\n" ++
    lit "• Negotiable: " ++ salary.negotiable ++ lit "\n" ++
    (if salary.additional_notes = [] then ([] : Str)
     else lit "\nAdditional Notes:\n• " ++ salary.additional_notes ++ lit "\n"))

/-- `ResponseFormatter.format_languages`. -/
def format_languages (languages : List Str) : Str :=
  if languages = [] then lit "No language information available."
  else
    pyStrip (lit "Languages:\n" ++
      (languages.map fun lang => lit "• " ++ lang ++ lit "\n").join)

/-! ## GPTService (`src/src/models/gpt_service.py`) -/

/-- Python exceptions carry no information our claims need. -/
abbrev PyErr := Unit

deriving instance DecidableEq for Except

/-- A Python `try/except Exception` block. -/
def pyTry (body : Except PyErr α) (handler : PyErr → Except PyErr α) : Except PyErr α :=
  match body with
  | .ok a => .ok a
  | .error e => handler e

/-- Outcome of one call to the external OpenAI completion endpoint: either a
completion text or an arbitrary raised exception. -/
inductive ApiOutcome where
  | ok (text : Str)
  | fail
deriving DecidableEq

/-- The raw `self.client.chat.completions.create(...)` call inside
`GPTService.get_completion`, which may raise. -/
def openai_call (prompt : Str) (api : ApiOutcome) : Except PyErr Str :=
  match api with
  | .ok text => .ok text
  | .fail => .error ()

/-- `GPTService.get_completion`: the API call is wrapped in `try/except`, the
success text is stripped, and any exception is converted to a literal error
string — the method itself never raises. -/
def get_completion (prompt : Str) (api : ApiOutcome) : Str :=
  match openai_call prompt api with
  | .ok response => pyStrip response
  | .error _ => lit "[Error: Unable to get response from GPT API]"

/-! ## QAModel (`src/src/models/qa_model.py`) -/

/-- An entry of the `predefined_qa` table (the `question` field of the source
dicts is never read by the matcher and is omitted). -/
structure PredefEntry where
  answer : Str
  keywords : List Str

/-- The `predefined_qa` list built in `QAModel.__init__` from the knowledge
base.  The source's `[RESUME_DATA["professional_experience"][0]]` is embedded
as `.take 1`. -/
def predefined_qa (kb : KnowledgeBase) : List PredefEntry :=
  [⟨format_certifications kb.certifications,
    [lit "certifications", lit "certification", lit "certified"]⟩,
   ⟨format_skills (skillsDict kb),
    [lit "technical skills", lit "technologies"]⟩,
   ⟨format_skills [(lit "Programming Languages", kb.skills_and_technologies.programming_languages)],
    [lit "programming languages", lit "coding languages"]⟩,
   ⟨format_experience (kb.professional_experience.take 1),
    [lit "current role", lit "current position", lit "current job"]⟩,
   ⟨format_achievements kb.key_achievements_summary (some [lit "Azure", lit "Azure DevOps"]),
    [lit "azure experience", lit "experience with azure"]⟩,
   ⟨lit "Frank has " ++ kb.experience_highlights.total_ba_experience ++
      lit " of business analysis experience.",
    [lit "business analysis experience", lit "years of experience as business analyst"]⟩,
   ⟨format_skills [(lit "Data Visualization Tools",
      kb.skills_and_technologies.tools.filter fun skill =>
        [lit "power bi", lit "visualization", lit "dashboard"].any fun tool =>
          pyIn tool (pyLower skill))],
    [lit "data visualization tools", lit "visualization tools"]⟩]

/-- The predefined-Q&A scan at the top of `QAModel._get_structured_answer`: the
first entry one of whose keyword phrases has all its whitespace-separated words
as substrings of the lowercased question. -/
def predef_match (kb : KnowledgeBase) (qLower : Str) : Option Str :=
  (predefined_qa kb).findSome? fun entry =>
    if entry.keywords.any (fun keyword => (pyWords (pyLower keyword)).all fun word => pyIn word qLower)
    then some entry.answer
    else none

/-- The ordered `tech_mapping` dict of `QAModel._get_structured_answer`
(Python dicts iterate in insertion order). -/
def tech_mapping : List (Str × Str × Str) :=
  [(lit "azure", lit "Azure", lit "Azure DevOps"),
   (lit "sql", lit "SQL", lit "Database"),
   (lit "python", lit "Python", lit "Programming"),
   (lit "power bi", lit "Power BI", lit "Data Visualization"),
   (lit "git", lit "Git", lit "Version Control"),
   (lit ".net", lit ".NET", lit "Framework")]

/-- The Work-location sub-dispatch of `QAModel._get_structured_answer`
(lines 179–186 of `qa_model.py`). -/
def qa_work_location (kb : KnowledgeBase) (q : Str) : Str × ℚ :=
  if pyIn (lit "work") q || pyIn (lit "job") q || pyIn (lit "company") q || pyIn (lit "office") q then
    (lit "Frank works at The Marker Group in the Houston metropolitan area", 1)
  else if pyIn (lit "school") q || pyIn (lit "university") q || pyIn (lit "college") q || pyIn (lit "education") q then
    (format_education kb.education, 1)
  else
    (lit "Frank is located in " ++ kb.contact_information.location, 1)

/-- The Experience sub-dispatch of `QAModel._get_structured_answer`
(lines 204–216 of `qa_model.py`). -/
def qa_experience_answer (kb : KnowledgeBase) (q : Str) : Str × ℚ :=
  if pyIn (lit "business analyst") q || pyIn (lit "ba") q then
    (lit "Frank has " ++ kb.experience_highlights.total_ba_experience ++
      lit " of business analysis experience.", 1)
  else if pyIn (lit "scrum") q then
    (lit "Frank has " ++ kb.experience_highlights.scrum_master_experience ++
      lit " of Scrum Master experience.", 1)
  else if pyIn (lit "azure") q then
    (lit "Frank has " ++ kb.experience_highlights.azure_experience ++
      lit " of Azure experience.", 1)
  else if pyIn (lit "sql") q then
    (lit "Frank has " ++ kb.experience_highlights.sql_experience ++
      lit " of SQL experience.", 1)
  else
    (lit "Frank's experience:\n• Business Analysis: " ++ kb.experience_highlights.total_ba_experience ++
      lit "\n• Scrum Master: " ++ kb.experience_highlights.scrum_master_experience ++
      lit "\n• Azure: " ++ kb.experience_highlights.azure_experience ++
      lit "\n• SQL: " ++ kb.experience_highlights.sql_experience, 1)

/-- The tail of `QAModel._get_structured_answer` (lines 253–282): the ordered
`tech_mapping` scan, then the human-languages, projects and salary rules, then
the no-match exit `("", 0.0)`. -/
def qa_tail (kb : KnowledgeBase) (q : Str) : Str × ℚ :=
  match tech_mapping.findSome? (fun t => if pyIn t.1 q then some t.2 else none) with
  | some tags =>
    (format_achievements kb.key_achievements_summary (some [tags.1, tags.2]), 1)
  | none =>
    if pyIn (lit "language") q &&
        !(pyIn (lit "programming") q || pyIn (lit "coding") q || pyIn (lit "technical") q) then
      (format_languages kb.languages, 1)
    else if pyIn (lit "project") q || pyIn (lit "medical record") q || pyIn (lit "ner") q || pyIn (lit "ai") q then
      (format_projects kb.projects, 1)
    else if pyIn (lit "salary") q || pyIn (lit "compensation") q || pyIn (lit "pay") q || pyIn (lit "money") q then
      (format_salary_expectations kb.salary_expectations, 1)
    else
      ([], 0)

/-- `QAModel._get_structured_answer`: the predefined-Q&A scan followed by the
keyword if-chain of the source, returning `(answer, confidence)` with an empty
answer and confidence `0.0` when nothing matches.  The three largest inline
blocks are factored out above as `qa_work_location`, `qa_experience_answer`
and `qa_tail`. -/
def qa_get_structured_answer (kb : KnowledgeBase) (question : Str) : Str × ℚ :=
  let qLower := pyLower question
  match predef_match kb qLower with
  | some answer => (answer, 1)
  | none =>
    let q := pyLower question
    if anyIn [lit "education", lit "degree", lit "university", lit "college", lit "school"] q then
      (format_education kb.education, 1)
    else if anyIn [lit "where", lit "location", lit "based", lit "live"] q then
      qa_work_location kb q
    else if anyIn [lit "contact", lit "email", lit "linkedin", lit "reach"] q then
      (format_contact kb.contact_information, 1)
    else if pyIn (lit "current role") q || pyIn (lit "current position") q || pyIn (lit "current job") q then
      (format_experience (kb.professional_experience.take 1), 1)
    else if anyIn [lit "looking for", lit "seeking", lit "job search", lit "desired role", lit "target role"] q then
      (lit "Seeking " ++ kb.job_search_criteria.desired_role ++ lit " in " ++
        kb.job_search_criteria.preferred_location ++ lit ". " ++
        kb.job_search_criteria.other_criteria, 1)
    else if pyIn (lit "certification") q || pyIn (lit "certified") q then
      (format_certifications kb.certifications, 1)
    else if anyIn [lit "experience", lit "years"] q then
      qa_experience_answer kb q
    else if (pyIn (lit "programming language") q || pyIn (lit "programming") q) &&
        (pyIn (lit "language") q || pyIn (lit "code") q || pyIn (lit "coding") q) then
      (format_skills [(lit "Programming Languages", kb.skills_and_technologies.programming_languages)], 1)
    else if pyIn (lit "technical skill") q || pyIn (lit "technology") q || pyIn (lit "tools") q then
      (format_skills [(lit "Cloud & Networking", kb.skills_and_technologies.cloud_and_net),
                      (lit "Tools & Technologies", kb.skills_and_technologies.tools)], 1)
    else if pyIn (lit "business skill") q || pyIn (lit "business analysis") q || pyIn (lit "ba skill") q then
      (format_skills [(lit "Business Analysis", kb.skills_and_technologies.business_analysis)], 1)
    else if pyIn (lit "agile") q || pyIn (lit "scrum") q then
      (format_skills [(lit "Agile & Scrum", kb.skills_and_technologies.agile_and_scrum)], 1)
    else if pyIn (lit "soft skill") q || pyIn (lit "communication") q || pyIn (lit "leadership") q then
      (format_skills [(lit "Soft Skills", kb.skills_and_technologies.soft_skills)], 1)
    else if anyIn [lit "achievement", lit "accomplish", lit "metrics", lit "results", lit "impact"] q then
      (format_achievements kb.key_achievements_summary none, 1)
    else
      qa_tail kb q

/-- The state of the lazily loaded extractive pipeline at one
`answer_question` call: not loaded (or load failed), loaded but raising on this
call, or returning `{"answer": ..., "score": ...}`. -/
inductive MLOutcome where
  | unavailable
  | raises
  | result (answer : Str) (score : ℚ)
deriving DecidableEq

/-- The `except gpt_error` arm of `answer_question`: retry the structured
answer at confidence `0.5`, else the static trouble message at `0.0`. -/
def qa_final_fallback (kb : KnowledgeBase) (question : Str) : Except PyErr (Str × ℚ × Str) :=
  let p := qa_get_structured_answer kb question
  if p.1 ≠ [] then
    .ok (add_confidence_note p.1 (mkRat 5 10) (lit "structured fallback"), mkRat 5 10,
      lit "structured_fallback")
  else
    .ok (lit "I'm having trouble processing your question right now. Please try asking about Frank's certifications, experience, or skills.",
      0, lit "fallback")

/-- The `try: gpt_answer = self.gpt_service.get_completion(question) ...` block
of `answer_question`.  `get_completion` is a total function (its own
`try/except` absorbs API failures), so the handler is reachable only through
the source's defensive `except`. -/
def qa_gpt_stage (kb : KnowledgeBase) (api : ApiOutcome) (question : Str) :
    Except PyErr (Str × ℚ × Str) :=
  pyTry
    (Except.ok
      (let gpt_answer := get_completion question api
       (add_confidence_note gpt_answer (mkRat 6 10) (lit "GPT fallback"), mkRat 6 10, lit "gpt")))
    (fun _ => qa_final_fallback kb question)

/-- The extractive-model stage of `answer_question`: skipped when the pipeline
is unavailable, its exceptions caught (continuing to the GPT stage), and its
result accepted only when the stripped answer is non-empty with score above
`0.7`. -/
def qa_ml_stage (kb : KnowledgeBase) (ml : MLOutcome) (api : ApiOutcome) (question : Str) :
    Except PyErr (Str × ℚ × Str) :=
  match ml with
  | .unavailable => qa_gpt_stage kb api question
  | .raises => pyTry (Except.error ()) (fun _ => qa_gpt_stage kb api question)
  | .result answer score =>
    let a := pyStrip answer
    if a ≠ [] ∧ score > mkRat 7 10 then
      .ok (add_confidence_note a score (lit "AI model"), score, lit "qa_model")
    else
      qa_gpt_stage kb api question

/-- `QAModel.answer_question`: structured first (accepted when non-empty with
confidence above `0.7`), then the extractive model, then GPT, all inside the
outer `try/except` that degrades any escaped exception to the `"error"`
triple. -/
def answer_question (kb : KnowledgeBase) (ml : MLOutcome) (api : ApiOutcome) (question : Str) :
    Except PyErr (Str × ℚ × Str) :=
  pyTry
    (let p := qa_get_structured_answer kb question
     if p.1 ≠ [] ∧ p.2 > mkRat 7 10 then
       Except.ok (add_confidence_note p.1 p.2 (lit "structured data"), p.2, lit "structured")
     else
       qa_ml_stage kb ml api question)
    (fun _ =>
      Except.ok (lit "I encountered an error while processing your question. Please try again.",
        0, lit "error"))

/-! ## The standalone resolver (`src/app.py`) -/

/-- The pronoun normalizer at the top of `app.py`'s `get_structured_answer`:
lowercase, then the six literal `str.replace` substitutions in source order. -/
def normalizeApp (question : Str) : Str :=
  pyReplace (lit "i") (lit "frank")
    (pyReplace (lit "my") (lit "frank's")
      (pyReplace (lit "he") (lit "frank")
        (pyReplace (lit "his") (lit "frank's")
          (pyReplace (lit "you") (lit "frank")
            (pyReplace (lit "your") (lit "frank's") (pyLower question))))))

/-- `"\n".join(f"• {skill}" for skill in skills)` as used by `app.py`. -/
def app_bullets (skills : List Str) : Str :=
  pyJoin (lit "\n") (skills.map fun skill => lit "• " ++ skill)

/-- The Job History branch of `app.py` (`past_jobs[0]` of the pre-sorted list,
else the polite empty-lookup string at confidence `0.6`). -/
def app_job_history (kb : KnowledgeBase) (q : Str) : Str × ℚ :=
  let past_jobs := kb.professional_experience.filter fun exp => exp.status == lit "Past"
  match past_jobs with
  | last_job :: _ =>
    (lit "Frank's most recent previous job was as a " ++ last_job.role ++
      lit " at " ++ last_job.company ++ lit ".", 1)
  | [] =>
    (lit "I couldn't find information about Frank's past jobs, but I can tell you about his current one.",
      mkRat 6 10)

/-- The Certifications branch of `app.py` (name and issuer only). -/
def app_certifications (kb : KnowledgeBase) (q : Str) : Str × ℚ :=
  (lit "Frank holds the following certifications:\n" ++
    pyJoin (lit "\n") (kb.certifications.map fun cert =>
      lit "• " ++ cert.name ++ lit " (" ++ cert.issuer ++ lit ")"), 1)

/-- The Current Role branch of `app.py`. -/
def app_current_role (kb : KnowledgeBase) (q : Str) : Str × ℚ :=
  match kb.professional_experience.find? (fun exp => exp.status == lit "Current") with
  | some current_job =>
    (lit "Frank's current role is " ++ current_job.role ++ lit " at " ++
      current_job.company ++ lit ".", 1)
  | none => (lit "I couldn't find Frank's current role.", mkRat 5 10)

/-- The Location branch of `app.py`. -/
def app_location (kb : KnowledgeBase) (q : Str) : Str × ℚ :=
  (lit "Frank is located in " ++ kb.contact_information.location ++ lit ".", 1)

/-- The Contact branch of `app.py`. -/
def app_contact (kb : KnowledgeBase) (q : Str) : Str × ℚ :=
  (lit "You can contact Frank via email at " ++ kb.contact_information.email ++
    lit ". You can also find him on LinkedIn: " ++ kb.contact_information.linkedin, 1)

/-- The Skills branch of `app.py`, with its nested category sub-dispatch. -/
def app_skills (kb : KnowledgeBase) (q : Str) : Str × ℚ :=
  let skills_data := kb.skills_and_technologies
  if pyIn (lit "cloud") q || pyIn (lit "azure") q then
    (lit "Frank's cloud and .NET skills include:\n" ++ app_bullets skills_data.cloud_and_net, 1)
  else if pyIn (lit "programming") q || pyIn (lit "language") q || pyIn (lit "code") q then
    (lit "Frank's programming languages include:\n" ++ app_bullets skills_data.programming_languages, 1)
  else if pyIn (lit "tool") q then
    (lit "Frank's technical tools expertise includes:\n" ++ app_bullets skills_data.tools, 1)
  else if pyIn (lit "business") q then
    (lit "Frank's business and process skills include:\n" ++
      app_bullets (skills_data.business_analysis ++ skills_data.agile_and_scrum), 1)
  else
    let all_skills : List (Str × List Str) :=
      [(lit "Cloud & .NET", skills_data.cloud_and_net),
       (lit "Programming Languages", skills_data.programming_languages),
       (lit "Tools", skills_data.tools),
       (lit "Business & Agile", skills_data.business_analysis ++ skills_data.agile_and_scrum),
       (lit "Soft Skills", skills_data.soft_skills)]
    (pyStrip (lit "Frank's skills by category:\n\n" ++
      (all_skills.map fun cat => cat.1 ++ lit ":\n" ++ app_bullets cat.2 ++ lit "\n\n").join), 1)

/-- The Experience branch of `app.py`, with its nested topic sub-dispatch. -/
def app_experience (kb : KnowledgeBase) (q : Str) : Str × ℚ :=
  let exp := kb.experience_highlights
  if pyIn (lit "business") q || pyIn (lit "ba") q then
    (lit "Frank has " ++ exp.total_ba_experience ++ lit " of Business Analysis experience.", 1)
  else if pyIn (lit "azure") q then
    (lit "Frank has " ++ exp.azure_experience ++ lit " of Azure experience.", 1)
  else if pyIn (lit "sql") q then
    (lit "Frank has " ++ exp.sql_experience ++ lit " of SQL experience.", 1)
  else if pyIn (lit "scrum") q then
    (lit "Frank has " ++ exp.scrum_master_experience ++ lit " of Scrum experience.", 1)
  else
    (lit "Frank's experience includes:\n• Business Analysis: " ++ exp.total_ba_experience ++
      lit "\n• Scrum Master: " ++ exp.scrum_master_experience ++
      lit "\n• Azure: " ++ exp.azure_experience ++
      lit "\n• SQL: " ++ exp.sql_experience, 1)

/-- The prompt built by `app.py` for its GPT fallback.  The modelled provider
outcome does not read the prompt, so the `json.dumps(RESUME_DATA)` context dump
embedded in the source's f-string is elided from the text. -/
def app_gpt_prompt (kb : KnowledgeBase) (question : Str) : Str :=
  lit "You are an AI assistant answering questions about a job candidate named Frank based on his resume data. Answer the following question concisely, as if you are Frank's helpful assistant. Do not mention that you are using his resume data. If the question is unrelated to Frank's professional background, politely decline to answer. Question: \"" ++
    question ++ lit "\" Answer:"

/-- Lines 185–209 of `app.py`: when no rule matched, call GPT at confidence
`0.7` when enabled (the `except` arm mirrors the source's defensive handler
around the total `get_completion`), else the static terminal message at
`0.5`. -/
def app_gpt_fallback (kb : KnowledgeBase) (gpt_enabled : Bool) (api : ApiOutcome)
    (question : Str) : Str × ℚ :=
  if gpt_enabled then
    match (Except.ok (get_completion (app_gpt_prompt kb question) api) : Except PyErr Str) with
    | .ok answer => (answer, mkRat 7 10)
    | .error _ => (lit "I encountered an error trying to answer your question. Please try again.", 0)
  else
    (lit "I can provide information about Frank's certifications, skills, experience, current role, or contact details. Please ask about any of these topics.",
      mkRat 5 10)

/-- `app.py`'s `get_structured_answer`: normalize the question, then the
if-chain of topic rules in source order, then the GPT/terminal fallback. -/
def app_get_structured_answer (kb : KnowledgeBase) (gpt_enabled : Bool) (api : ApiOutcome)
    (question : Str) : Str × ℚ :=
  let q := normalizeApp question
  if anyIn [lit "last job", lit "previous job", lit "past job", lit "former job"] q then
    app_job_history kb q
  else if anyIn [lit "certification", lit "certified", lit "cert"] q then
    app_certifications kb q
  else if anyIn [lit "current role", lit "current position", lit "current job", lit "job",
      lit "role", lit "work", lit "do for work", lit "do for a living"] q then
    app_current_role kb q
  else if anyIn [lit "where", lit "location", lit "based", lit "live", lit "located", lit "from"] q then
    app_location kb q
  else if anyIn [lit "contact", lit "email", lit "reach", lit "get in touch"] q then
    app_contact kb q
  else if anyIn [lit "skill", lit "technology", lit "tool", lit "tech", lit "know",
      lit "can do", lit "expertise", lit "proficiency"] q then
    app_skills kb q
  else if anyIn [lit "experience", lit "how long", lit "years", lit "time"] q then
    app_experience kb q
  else
    app_gpt_fallback kb gpt_enabled api question

/-! ## The rule table (specification view of `app.py`'s matcher)

The spec describes the matcher as an ordered list of (trigger keywords,
formatter) rules evaluated first-match-wins.  `appRules` renders that table,
in the spec's canonical order, from the same branch formatters; `firstMatch`
is the generic first-match evaluator. -/

/-- A topic rule: trigger keyword phrases and a responder on the normalized
question. -/
structure TopicRule where
  terms : List Str
  respond : Str → Str × ℚ

/-- A rule fires when any of its keyword phrases is a substring of the
question. -/
def ruleMatches (r : TopicRule) (q : Str) : Bool := anyIn r.terms q

/-- First-match-wins evaluation of an ordered rule list. -/
def firstMatch : List TopicRule → Str → Option (Str × ℚ)
  | [], _ => none
  | r :: rs, q => if ruleMatches r q then some (r.respond q) else firstMatch rs q

/-- The canonical ordered rule table of `app.py`'s matcher:
most-recent-past-role, certifications, current role, location, contact, skills
(with category sub-dispatch), experience (with topic sub-dispatch). -/
def appRules (kb : KnowledgeBase) : List TopicRule :=
  [⟨[lit "last job", lit "previous job", lit "past job", lit "former job"], app_job_history kb⟩,
   ⟨[lit "certification", lit "certified", lit "cert"], app_certifications kb⟩,
   ⟨[lit "current role", lit "current position", lit "current job", lit "job",
     lit "role", lit "work", lit "do for work", lit "do for a living"], app_current_role kb⟩,
   ⟨[lit "where", lit "location", lit "based", lit "live", lit "located", lit "from"], app_location kb⟩,
   ⟨[lit "contact", lit "email", lit "reach", lit "get in touch"], app_contact kb⟩,
   ⟨[lit "skill", lit "technology", lit "tool", lit "tech", lit "know",
     lit "can do", lit "expertise", lit "proficiency"], app_skills kb⟩,
   ⟨[lit "experience", lit "how long", lit "years", lit "time"], app_experience kb⟩]

/-! ## The data loader (`src/src/config/data_loader.py`), value level

The template is a tree of strings, lists and dicts; `_load_and_populate_data`
recursively rebuilds it, substituting `ENV::NAME` strings from the
environment. -/

/-- A JSON-like template value: string, list, or dict. -/
inductive JValue where
  | str (s : Str)
  | arr (elems : List JValue)
  | obj (fields : List (Str × JValue))

/-- The environment, as `os.getenv`. -/
abbrev Env := Str → Option Str

/-- The `ENV::`-string arm of `_load_and_populate_data`:
`template.split("::")[1]` names the variable, and a missing variable yields the
visible `<NAME not set>` placeholder. -/
def env_substitution (env : Env) (s : Str) : Str :=
  let var_name := (pySplit (lit "::") s).getD 1 []
  match env var_name with
  | none => lit "<" ++ var_name ++ lit " not set>"
  | some value => value

mutual

/-- `_load_and_populate_data`, value level: dicts and lists are rebuilt
recursively; strings with the `ENV::` sentinel prefix are substituted from the
environment; every other value is returned unchanged. -/
def load_and_populate_data (env : Env) : JValue → JValue
  | .obj fields => .obj (load_and_populate_fields env fields)
  | .arr elems => .arr (load_and_populate_list env elems)
  | .str s =>
    if pyStartsWith (lit "ENV::") s then .str (env_substitution env s)
    else .str s

/-- The list comprehension arm of `_load_and_populate_data`. -/
def load_and_populate_list (env : Env) : List JValue → List JValue
  | [] => []
  | v :: vs => load_and_populate_data env v :: load_and_populate_list env vs

/-- The dict-rebuilding arm of `_load_and_populate_data`. -/
def load_and_populate_fields (env : Env) : List (Str × JValue) → List (Str × JValue)
  | [] => []
  | (k, v) :: fs => (k, load_and_populate_data env v) :: load_and_populate_fields env fs

end

/-! ## The data loader, heap level

To express what `get_resume_data` does and does not mutate, the same two
functions are embedded once more over an explicit heap: addresses are indices
into a list of nodes, and allocation appends.  `copy.deepcopy` allocates fresh
list/dict nodes (strings, being immutable, are shared, which is what
`deepcopy` does for `str`); `_load_and_populate_data` likewise only reads
existing nodes and allocates new ones.  All functions are fuel-indexed (every
recursive call decreases the fuel); any fuel above the size of the reachable
region gives the Python behaviour, and cycles merely exhaust the fuel. -/

/-- A heap address. -/
abbrev Addr := Nat

/-- A heap node of the template object graph. -/
inductive HNode where
  | str (s : Str)
  | arr (elems : List Addr)
  | obj (fields : List (Str × Addr))
deriving DecidableEq

/-- The heap: node at address `i` is entry `i`; allocation appends. -/
abbrev Heap := List HNode

mutual

/-- `copy.deepcopy` on the template graph: fresh `arr`/`obj` nodes, shared
`str` nodes. -/
def deepCopyH : Nat → Heap → Addr → Option (Heap × Addr)
  | 0, _, _ => none
  | fuel + 1, h, a =>
    match h[a]? with
    | none => none
    | some (.str _) => some (h, a)
    | some (.arr elems) =>
      match deepCopyListH fuel h elems with
      | none => none
      | some (h1, elems1) => some (h1 ++ [.arr elems1], h1.length)
    | some (.obj fields) =>
      match deepCopyFieldsH fuel h fields with
      | none => none
      | some (h1, fields1) => some (h1 ++ [.obj fields1], h1.length)

/-- Deep copy of the elements of a list node, threading the heap. -/
def deepCopyListH : Nat → Heap → List Addr → Option (Heap × List Addr)
  | _, h, [] => some (h, [])
  | 0, _, _ :: _ => none
  | fuel + 1, h, a :: rest =>
    match deepCopyH fuel h a with
    | none => none
    | some (h1, a1) =>
      match deepCopyListH fuel h1 rest with
      | none => none
      | some (h2, rest1) => some (h2, a1 :: rest1)

/-- Deep copy of the values of a dict node, threading the heap. -/
def deepCopyFieldsH : Nat → Heap → List (Str × Addr) → Option (Heap × List (Str × Addr))
  | _, h, [] => some (h, [])
  | 0, _, _ :: _ => none
  | fuel + 1, h, (k, a) :: rest =>
    match deepCopyH fuel h a with
    | none => none
    | some (h1, a1) =>
      match deepCopyFieldsH fuel h1 rest with
      | none => none
      | some (h2, rest1) => some (h2, (k, a1) :: rest1)

end

mutual

/-- `_load_and_populate_data`, heap level: dict and list arms build new nodes
(`populated_dict = {}` and the list comprehension allocate); the `ENV::` arm
returns a new string; the plain-string arm returns the same object. -/
def populate_dataH (env : Env) : Nat → Heap → Addr → Option (Heap × Addr)
  | 0, _, _ => none
  | fuel + 1, h, a =>
    match h[a]? with
    | none => none
    | some (.str s) =>
      if pyStartsWith (lit "ENV::") s then
        some (h ++ [.str (env_substitution env s)], h.length)
      else some (h, a)
    | some (.arr elems) =>
      match populate_listH env fuel h elems with
      | none => none
      | some (h1, elems1) => some (h1 ++ [.arr elems1], h1.length)
    | some (.obj fields) =>
      match populate_fieldsH env fuel h fields with
      | none => none
      | some (h1, fields1) => some (h1 ++ [.obj fields1], h1.length)

/-- The list-comprehension arm, heap level. -/
def populate_listH (env : Env) : Nat → Heap → List Addr → Option (Heap × List Addr)
  | _, h, [] => some (h, [])
  | 0, _, _ :: _ => none
  | fuel + 1, h, a :: rest =>
    match populate_dataH env fuel h a with
    | none => none
    | some (h1, a1) =>
      match populate_listH env fuel h1 rest with
      | none => none
      | some (h2, rest1) => some (h2, a1 :: rest1)

/-- The dict-rebuilding arm, heap level. -/
def populate_fieldsH (env : Env) : Nat → Heap → List (Str × Addr) → Option (Heap × List (Str × Addr))
  | _, h, [] => some (h, [])
  | 0, _, _ :: _ => none
  | fuel + 1, h, (k, a) :: rest =>
    match populate_dataH env fuel h a with
    | none => none
    | some (h1, a1) =>
      match populate_fieldsH env fuel h1 rest with
      | none => none
      | some (h2, rest1) => some (h2, (k, a1) :: rest1)

end

/-- `get_resume_data`, heap level: deep-copy the module-level template, then
populate the copy. -/
def get_resume_dataH (env : Env) (fuel : Nat) (h : Heap) (template : Addr) :
    Option (Heap × Addr) :=
  match deepCopyH fuel h template with
  | none => none
  | some (h1, a1) => populate_dataH env fuel h1 a1

/-! ## Feedback storage (`operations.py` and `src/src/api/main.py`) -/

/-- A row of the `answers` table. -/
structure AnswerRow where
  id : Nat
  question_id : Nat
  text : Str
  confidence : ℚ
  source : Str
deriving DecidableEq

/-- A row of the `feedback` table. -/
structure FeedbackRow where
  id : Nat
  answer_id : Nat
  score : Int
  was_helpful : Bool
  comment : Option Str
deriving DecidableEq

/-- The persistent state the feedback path touches: the `answers` and
`feedback` tables plus the next feedback primary key. -/
structure ConciergeDB where
  answers : List AnswerRow
  feedback : List FeedbackRow
  next_feedback_id : Nat
deriving DecidableEq

/-- The database error raised by a failed commit. -/
inductive DBErr where
  | integrityError
deriving DecidableEq

/-- `DatabaseOperations.store_feedback`: build a `Feedback` row, `add`, and
`commit`.  The configured database is PostgreSQL (`config/database.py` always
builds a `postgresql://` URL), which enforces the
`ForeignKey('answers.id')` declared on `feedback.answer_id` in `models.py`:
committing a row whose `answer_id` matches no answer raises `IntegrityError`
and persists nothing. -/
def store_feedback (db : ConciergeDB) (answer_id : Nat) (score : Int)
    (was_helpful : Bool) (comment : Option Str) : Except DBErr (ConciergeDB × Nat) :=
  if db.answers.any (fun a => a.id == answer_id) then
    .ok ({ db with
            feedback := db.feedback ++
              [⟨db.next_feedback_id, answer_id, score, was_helpful, comment⟩],
            next_feedback_id := db.next_feedback_id + 1 },
         db.next_feedback_id)
  else
    .error .integrityError

/-- The body of a `POST /feedback` request. -/
structure FeedbackRequest where
  answer_id : Nat
  score : Int
  was_helpful : Bool
  comment : Option Str
deriving DecidableEq

/-- What the `/feedback` handler sends back: the success payload's
`feedback_id`, or an `HTTPException` status. -/
inductive HttpReply where
  | ok (feedback_id : Nat)
  | error (status : Nat)
deriving DecidableEq

/-- The `POST /feedback` handler `submit_feedback` of `src/src/api/main.py`:
`store_feedback` inside `try/except` — any exception (including the
`IntegrityError` of an unknown `answer_id`) becomes `HTTPException(500)`.
(The `except ValidationError` arm cannot fire for a well-typed request and has
no counterpart here.) -/
def submit_feedback (db : ConciergeDB) (req : FeedbackRequest) : ConciergeDB × HttpReply :=
  match store_feedback db req.answer_id req.score req.was_helpful req.comment with
  | .ok (db1, feedback_id) => (db1, .ok feedback_id)
  | .error _ => (db, .error 500)

/-! ## Helper lemmas -/

section
attribute [local irreducible] lit

set_option maxHeartbeats 1000000 in
/-- `qa_work_location` always answers at confidence `1.0`. -/
theorem qa_work_location_conf (kb : KnowledgeBase) (q : Str) :
    (qa_work_location kb q).2 = 1 := by
  unfold qa_work_location
  repeat' split
  all_goals rfl

set_option maxHeartbeats 1000000 in
/-- `qa_experience_answer` always answers at confidence `1.0`. -/
theorem qa_experience_answer_conf (kb : KnowledgeBase) (q : Str) :
    (qa_experience_answer kb q).2 = 1 := by
  unfold qa_experience_answer
  repeat' split
  all_goals rfl

set_option maxHeartbeats 1000000 in
/-- `qa_tail` answers at confidence `1.0` or exits with `("", 0.0)`. -/
theorem qa_tail_conf (kb : KnowledgeBase) (q : Str) :
    (qa_tail kb q).2 = 1 ∨ qa_tail kb q = ([], 0) := by
  unfold qa_tail
  repeat' split
  all_goals first
    | exact Or.inl rfl
    | exact Or.inr rfl

set_option maxHeartbeats 1000000 in
/-- Every branch of `qa_get_structured_answer` that produces an answer does so
at confidence `1.0`; the only other exit is the empty answer at `0.0`. -/
theorem qa_structured_confidence (kb : KnowledgeBase) (q : Str) :
    (qa_get_structured_answer kb q).2 = 1 ∨ qa_get_structured_answer kb q = ([], 0) := by
  unfold qa_get_structured_answer
  dsimp only
  split
  · exact Or.inl rfl
  · generalize anyIn [lit "education", lit "degree", lit "university", lit "college", lit "school"] (pyLower q) = c0
    generalize anyIn [lit "where", lit "location", lit "based", lit "live"] (pyLower q) = c1
    generalize anyIn [lit "contact", lit "email", lit "linkedin", lit "reach"] (pyLower q) = c2
    generalize (pyIn (lit "current role") (pyLower q) || pyIn (lit "current position") (pyLower q) || pyIn (lit "current job") (pyLower q)) = c3
    generalize anyIn [lit "looking for", lit "seeking", lit "job search", lit "desired role", lit "target role"] (pyLower q) = c4
    generalize (pyIn (lit "certification") (pyLower q) || pyIn (lit "certified") (pyLower q)) = c5
    generalize anyIn [lit "experience", lit "years"] (pyLower q) = c6
    generalize ((pyIn (lit "programming language") (pyLower q) || pyIn (lit "programming") (pyLower q)) && (pyIn (lit "language") (pyLower q) || pyIn (lit "code") (pyLower q) || pyIn (lit "coding") (pyLower q))) = c7
    generalize (pyIn (lit "technical skill") (pyLower q) || pyIn (lit "technology") (pyLower q) || pyIn (lit "tools") (pyLower q)) = c8
    generalize (pyIn (lit "business skill") (pyLower q) || pyIn (lit "business analysis") (pyLower q) || pyIn (lit "ba skill") (pyLower q)) = c9
    generalize (pyIn (lit "agile") (pyLower q) || pyIn (lit "scrum") (pyLower q)) = c10
    generalize (pyIn (lit "soft skill") (pyLower q) || pyIn (lit "communication") (pyLower q) || pyIn (lit "leadership") (pyLower q)) = c11
    generalize anyIn [lit "achievement", lit "accomplish", lit "metrics", lit "results", lit "impact"] (pyLower q) = c12
    cases c0 with
    | true => exact Or.inl rfl
    | false => cases c1 with
    | true => exact Or.inl (qa_work_location_conf kb (pyLower q))
    | false => cases c2 with
    | true => exact Or.inl rfl
    | false => cases c3 with
    | true => exact Or.inl rfl
    | false => cases c4 with
    | true => exact Or.inl rfl
    | false => cases c5 with
    | true => exact Or.inl rfl
    | false => cases c6 with
    | true => exact Or.inl (qa_experience_answer_conf kb (pyLower q))
    | false => cases c7 with
    | true => exact Or.inl rfl
    | false => cases c8 with
    | true => exact Or.inl rfl
    | false => cases c9 with
    | true => exact Or.inl rfl
    | false => cases c10 with
    | true => exact Or.inl rfl
    | false => cases c11 with
    | true => exact Or.inl rfl
    | false => cases c12 with
    | true => exact Or.inl rfl
    | false => exact qa_tail_conf kb (pyLower q)

set_option maxHeartbeats 1000000 in
/-- Closed form of `answer_question`: the structured stage when accepted, else
the extractive stage when loaded, returning and accepted, else the GPT triple —
which, `get_completion` being total, is always reached; no exception escapes. -/
theorem answer_question_eq (kb : KnowledgeBase) (ml : MLOutcome) (api : ApiOutcome) (q : Str) :
    answer_question kb ml api q =
      Except.ok
        (if (qa_get_structured_answer kb q).1 ≠ [] ∧ (qa_get_structured_answer kb q).2 > mkRat 7 10 then
          (add_confidence_note (qa_get_structured_answer kb q).1 (qa_get_structured_answer kb q).2
              (lit "structured data"),
            (qa_get_structured_answer kb q).2, lit "structured")
        else
          match ml with
          | .result answer score =>
            if pyStrip answer ≠ [] ∧ score > mkRat 7 10 then
              (add_confidence_note (pyStrip answer) score (lit "AI model"), score, lit "qa_model")
            else
              (add_confidence_note (get_completion q api) (mkRat 6 10) (lit "GPT fallback"),
                mkRat 6 10, lit "gpt")
          | _ =>
            (add_confidence_note (get_completion q api) (mkRat 6 10) (lit "GPT fallback"),
              mkRat 6 10, lit "gpt")) := by
  cases ml with
  | unavailable =>
    unfold answer_question qa_ml_stage qa_gpt_stage pyTry
    by_cases h : (qa_get_structured_answer kb q).1 ≠ [] ∧ (qa_get_structured_answer kb q).2 > mkRat 7 10
    · simp only [if_pos h]
    · simp only [if_neg h]
  | raises =>
    unfold answer_question qa_ml_stage qa_gpt_stage pyTry
    by_cases h : (qa_get_structured_answer kb q).1 ≠ [] ∧ (qa_get_structured_answer kb q).2 > mkRat 7 10
    · simp only [if_pos h]
    · simp only [if_neg h]
  | result answer score =>
    unfold answer_question qa_ml_stage qa_gpt_stage pyTry
    by_cases h : (qa_get_structured_answer kb q).1 ≠ [] ∧ (qa_get_structured_answer kb q).2 > mkRat 7 10
    · simp only [if_pos h]
    · simp only [if_neg h]
      by_cases h2 : pyStrip answer ≠ [] ∧ score > mkRat 7 10
      · simp only [if_pos h2]
      · simp only [if_neg h2]

set_option maxHeartbeats 1000000 in
/-- The if-chain of `app.py`'s `get_structured_answer` is the first-match
evaluation of the ordered rule table `appRules`. -/
theorem app_resolver_as_rule_table (kb : KnowledgeBase) (gpt_enabled : Bool) (api : ApiOutcome)
    (question : Str) :
    app_get_structured_answer kb gpt_enabled api question =
      match firstMatch (appRules kb) (normalizeApp question) with
      | some p => p
      | none => app_gpt_fallback kb gpt_enabled api question := by
  unfold app_get_structured_answer appRules
  simp only [firstMatch, ruleMatches]
  generalize anyIn [lit "last job", lit "previous job", lit "past job", lit "former job"] (normalizeApp question) = c0
  generalize anyIn [lit "certification", lit "certified", lit "cert"] (normalizeApp question) = c1
  generalize anyIn [lit "current role", lit "current position", lit "current job", lit "job", lit "role", lit "work", lit "do for work", lit "do for a living"] (normalizeApp question) = c2
  generalize anyIn [lit "where", lit "location", lit "based", lit "live", lit "located", lit "from"] (normalizeApp question) = c3
  generalize anyIn [lit "contact", lit "email", lit "reach", lit "get in touch"] (normalizeApp question) = c4
  generalize anyIn [lit "skill", lit "technology", lit "tool", lit "tech", lit "know", lit "can do", lit "expertise", lit "proficiency"] (normalizeApp question) = c5
  generalize anyIn [lit "experience", lit "how long", lit "years", lit "time"] (normalizeApp question) = c6
  cases c0 with
  | true => rfl
  | false => cases c1 with
  | true => rfl
  | false => cases c2 with
  | true => rfl
  | false => cases c3 with
  | true => rfl
  | false => cases c4 with
  | true => rfl
  | false => cases c5 with
  | true => rfl
  | false => cases c6 with
  | true => rfl
  | false => rfl

end

/-- `firstMatch` returns the earliest matching rule: if rule `i` matches and
every earlier rule does not, the result is rule `i`'s response. -/
theorem firstMatch_earliest (rs : List TopicRule) (q : Str) :
    ∀ (i : Nat) (r : TopicRule), rs[i]? = some r → ruleMatches r q = true →
      (∀ (j : Nat) (rj : TopicRule), j < i → rs[j]? = some rj → ruleMatches rj q = false) →
      firstMatch rs q = some (r.respond q) := by
  induction rs with
  | nil => intro i r hr; simp at hr
  | cons head tail ih =>
    intro i r hr hm hprev
    cases i with
    | zero =>
      simp only [List.getElem?_cons_zero, Option.some.injEq] at hr
      subst hr
      simp [firstMatch, hm]
    | succ i =>
      have hhead : ruleMatches head q = false := hprev 0 head (Nat.succ_pos i) (by simp)
      simp only [List.getElem?_cons_succ] at hr
      simp only [firstMatch, hhead]
      simp only [Bool.false_eq_true, if_false]
      exact ih i r hr hm fun j rj hj hget =>
        hprev (j + 1) rj (Nat.succ_lt_succ hj) (by simpa using hget)

/-- A Python `split` on a separator that occurs nowhere in the string returns
the whole string as the single part (for any sufficient fuel). -/
theorem pySplitAux_no_occ (c0 : Char) (sep' : Str) :
    ∀ (fuel : Nat) (s : Str), s.length ≤ fuel → ¬ ((c0 :: sep') <:+: s) →
      pySplitAux (c0 :: sep') fuel s = [s] := by
  intro fuel
  induction fuel with
  | zero =>
    intro s hlen hocc
    cases s with
    | nil => rfl
    | cons c rest => simp at hlen
  | succ fuel ih =>
    intro s hlen hocc
    cases s with
    | nil => rfl
    | cons c rest =>
      have hpre : (c0 :: sep').isPrefixOf (c :: rest) = false := by
        cases hp : (c0 :: sep').isPrefixOf (c :: rest)
        · rfl
        · exact absurd (List.isPrefixOf_iff_prefix.mp hp).isInfix hocc
      have hrest : pySplitAux (c0 :: sep') fuel rest = [rest] :=
        ih rest (Nat.le_of_succ_le_succ hlen)
          (fun hinf => hocc (hinf.trans (List.suffix_cons c rest).isInfix))
      simp only [pySplitAux, hpre, Bool.false_eq_true, if_false, hrest]

/-- Splitting `"ENV::" ++ name` on `"::"` yields `["ENV", name]` when the
variable name itself contains no `"::"`. -/
theorem pySplit_env (name : Str) (h : ¬ ((lit "::") <:+: name)) :
    pySplit (lit "::") (lit "ENV::" ++ name) = [lit "ENV", name] := by
  have hsep : lit "::" = [':', ':'] := by decide
  have hname : pySplitAux [':', ':'] (name.length + 1) name = [name] :=
    pySplitAux_no_occ ':' [':'] (name.length + 1) name (Nat.le_succ _) (hsep ▸ h)
  have ht : ([':', ':'] : Str).isPrefixOf (':' :: ':' :: name) = true := by
    cases name <;> rfl
  have hstep : pySplitAux [':', ':'] (name.length + 2) (':' :: ':' :: name) =
      [] :: pySplitAux [':', ':'] (name.length + 1) name := by
    simp only [pySplitAux, ht, eq_self_iff_true, if_true]
    rfl
  have e1 : pySplitAux [':', ':'] (name.length + 5) ('E' :: 'N' :: 'V' :: ':' :: ':' :: name) =
      (match pySplitAux [':', ':'] (name.length + 4) ('N' :: 'V' :: ':' :: ':' :: name) with
       | [] => [['E']]
       | p :: ps => ('E' :: p) :: ps) := rfl
  have e2 : pySplitAux [':', ':'] (name.length + 4) ('N' :: 'V' :: ':' :: ':' :: name) =
      (match pySplitAux [':', ':'] (name.length + 3) ('V' :: ':' :: ':' :: name) with
       | [] => [['N']]
       | p :: ps => ('N' :: p) :: ps) := rfl
  have e3 : pySplitAux [':', ':'] (name.length + 3) ('V' :: ':' :: ':' :: name) =
      (match pySplitAux [':', ':'] (name.length + 2) (':' :: ':' :: name) with
       | [] => [['V']]
       | p :: ps => ('V' :: p) :: ps) := rfl
  show pySplitAux [':', ':'] (name.length + 5) ('E' :: 'N' :: 'V' :: ':' :: ':' :: name) =
    [lit "ENV", name]
  rw [e1, e2, e3, hstep, hname]
  rfl

/-- Frame property of the heap-level deep copy: the heap only
grows, so every pre-existing address keeps its node. -/
theorem deepCopy_frame : ∀ fuel : Nat,
    (∀ h a h2 a2, deepCopyH fuel h a = some (h2, a2) → h <+: h2) ∧
    (∀ h as h2 as2, deepCopyListH fuel h as = some (h2, as2) → h <+: h2) ∧
    (∀ h fs h2 fs2, deepCopyFieldsH fuel h fs = some (h2, fs2) → h <+: h2) := by
  intro fuel
  induction fuel with
  | zero =>
    refine ⟨?_, ?_, ?_⟩
    · intro h a h2 a2 hr
      simp [deepCopyH] at hr
    · intro h as h2 as2 hr
      cases as with
      | nil =>
        simp only [deepCopyListH, Option.some.injEq, Prod.mk.injEq] at hr
        rw [← hr.1]
      | cons a rest => simp [deepCopyListH] at hr
    · intro h fs h2 fs2 hr
      cases fs with
      | nil =>
        simp only [deepCopyFieldsH, Option.some.injEq, Prod.mk.injEq] at hr
        rw [← hr.1]
      | cons f rest =>
        obtain ⟨k, a⟩ := f
        simp [deepCopyFieldsH] at hr
  | succ fuel ih =>
    obtain ⟨ihD, ihL, ihF⟩ := ih
    refine ⟨?_, ?_, ?_⟩
    · intro h a h2 a2 hr
      cases hn : h[a]? with
      | none => simp [deepCopyH, hn] at hr
      | some node =>
        cases node with
        | str s =>
          simp only [deepCopyH, hn, Option.some.injEq, Prod.mk.injEq] at hr
          rw [← hr.1]
        | arr elems =>
          cases hc : deepCopyListH fuel h elems with
          | none => simp [deepCopyH, hn, hc] at hr
          | some pr =>
            obtain ⟨h1, elems1⟩ := pr
            simp only [deepCopyH, hn, hc, Option.some.injEq, Prod.mk.injEq] at hr
            rw [← hr.1]
            exact (ihL h elems h1 elems1 hc).trans (List.prefix_append h1 [HNode.arr elems1])
        | obj fields =>
          cases hc : deepCopyFieldsH fuel h fields with
          | none => simp [deepCopyH, hn, hc] at hr
          | some pr =>
            obtain ⟨h1, fields1⟩ := pr
            simp only [deepCopyH, hn, hc, Option.some.injEq, Prod.mk.injEq] at hr
            rw [← hr.1]
            exact (ihF h fields h1 fields1 hc).trans (List.prefix_append h1 [HNode.obj fields1])
    · intro h as h2 as2 hr
      cases as with
      | nil =>
        simp only [deepCopyListH, Option.some.injEq, Prod.mk.injEq] at hr
        rw [← hr.1]
      | cons a rest =>
        cases hc : deepCopyH fuel h a with
        | none => simp [deepCopyListH, hc] at hr
        | some pr =>
          obtain ⟨h1, a1⟩ := pr
          cases hc2 : deepCopyListH fuel h1 rest with
          | none => simp [deepCopyListH, hc, hc2] at hr
          | some pr2 =>
            obtain ⟨h3, rest1⟩ := pr2
            simp only [deepCopyListH, hc, hc2, Option.some.injEq, Prod.mk.injEq] at hr
            rw [← hr.1]
            exact (ihD h a h1 a1 hc).trans (ihL h1 rest h3 rest1 hc2)
    · intro h fs h2 fs2 hr
      cases fs with
      | nil =>
        simp only [deepCopyFieldsH, Option.some.injEq, Prod.mk.injEq] at hr
        rw [← hr.1]
      | cons f rest =>
        obtain ⟨k, a⟩ := f
        cases hc : deepCopyH fuel h a with
        | none => simp [deepCopyFieldsH, hc] at hr
        | some pr =>
          obtain ⟨h1, a1⟩ := pr
          cases hc2 : deepCopyFieldsH fuel h1 rest with
          | none => simp [deepCopyFieldsH, hc, hc2] at hr
          | some pr2 =>
            obtain ⟨h3, rest1⟩ := pr2
            simp only [deepCopyFieldsH, hc, hc2, Option.some.injEq, Prod.mk.injEq] at hr
            rw [← hr.1]
            exact (ihD h a h1 a1 hc).trans (ihF h1 rest h3 rest1 hc2)

/-- Frame property of the heap-level populate pass: the heap only
grows, so every pre-existing address keeps its node. -/
theorem populate_frame (env : Env) : ∀ fuel : Nat,
    (∀ h a h2 a2, populate_dataH env fuel h a = some (h2, a2) → h <+: h2) ∧
    (∀ h as h2 as2, populate_listH env fuel h as = some (h2, as2) → h <+: h2) ∧
    (∀ h fs h2 fs2, populate_fieldsH env fuel h fs = some (h2, fs2) → h <+: h2) := by
  intro fuel
  induction fuel with
  | zero =>
    refine ⟨?_, ?_, ?_⟩
    · intro h a h2 a2 hr
      simp [populate_dataH] at hr
    · intro h as h2 as2 hr
      cases as with
      | nil =>
        simp only [populate_listH, Option.some.injEq, Prod.mk.injEq] at hr
        rw [← hr.1]
      | cons a rest => simp [populate_listH] at hr
    · intro h fs h2 fs2 hr
      cases fs with
      | nil =>
        simp only [populate_fieldsH, Option.some.injEq, Prod.mk.injEq] at hr
        rw [← hr.1]
      | cons f rest =>
        obtain ⟨k, a⟩ := f
        simp [populate_fieldsH] at hr
  | succ fuel ih =>
    obtain ⟨ihD, ihL, ihF⟩ := ih
    refine ⟨?_, ?_, ?_⟩
    · intro h a h2 a2 hr
      cases hn : h[a]? with
      | none => simp [populate_dataH, hn] at hr
      | some node =>
        cases node with
        | str s =>
          by_cases hp : pyStartsWith (lit "ENV::") s = true
          · simp only [populate_dataH, hn, if_pos hp, Option.some.injEq, Prod.mk.injEq] at hr
            rw [← hr.1]
            exact List.prefix_append h [HNode.str (env_substitution env s)]
          · simp only [populate_dataH, hn, if_neg hp, Option.some.injEq, Prod.mk.injEq] at hr
            rw [← hr.1]
        | arr elems =>
          cases hc : populate_listH env fuel h elems with
          | none => simp [populate_dataH, hn, hc] at hr
          | some pr =>
            obtain ⟨h1, elems1⟩ := pr
            simp only [populate_dataH, hn, hc, Option.some.injEq, Prod.mk.injEq] at hr
            rw [← hr.1]
            exact (ihL h elems h1 elems1 hc).trans (List.prefix_append h1 [HNode.arr elems1])
        | obj fields =>
          cases hc : populate_fieldsH env fuel h fields with
          | none => simp [populate_dataH, hn, hc] at hr
          | some pr =>
            obtain ⟨h1, fields1⟩ := pr
            simp only [populate_dataH, hn, hc, Option.some.injEq, Prod.mk.injEq] at hr
            rw [← hr.1]
            exact (ihF h fields h1 fields1 hc).trans (List.prefix_append h1 [HNode.obj fields1])
    · intro h as h2 as2 hr
      cases as with
      | nil =>
        simp only [populate_listH, Option.some.injEq, Prod.mk.injEq] at hr
        rw [← hr.1]
      | cons a rest =>
        cases hc : populate_dataH env fuel h a with
        | none => simp [populate_listH, hc] at hr
        | some pr =>
          obtain ⟨h1, a1⟩ := pr
          cases hc2 : populate_listH env fuel h1 rest with
          | none => simp [populate_listH, hc, hc2] at hr
          | some pr2 =>
            obtain ⟨h3, rest1⟩ := pr2
            simp only [populate_listH, hc, hc2, Option.some.injEq, Prod.mk.injEq] at hr
            rw [← hr.1]
            exact (ihD h a h1 a1 hc).trans (ihL h1 rest h3 rest1 hc2)
    · intro h fs h2 fs2 hr
      cases fs with
      | nil =>
        simp only [populate_fieldsH, Option.some.injEq, Prod.mk.injEq] at hr
        rw [← hr.1]
      | cons f rest =>
        obtain ⟨k, a⟩ := f
        cases hc : populate_dataH env fuel h a with
        | none => simp [populate_fieldsH, hc] at hr
        | some pr =>
          obtain ⟨h1, a1⟩ := pr
          cases hc2 : populate_fieldsH env fuel h1 rest with
          | none => simp [populate_fieldsH, hc, hc2] at hr
          | some pr2 =>
            obtain ⟨h3, rest1⟩ := pr2
            simp only [populate_fieldsH, hc, hc2, Option.some.injEq, Prod.mk.injEq] at hr
            rw [← hr.1]
            exact (ihD h a h1 a1 hc).trans (ihF h1 rest h3 rest1 hc2)

/-- A deep copy of a dict node allocates a fresh dict node: the returned
address is outside the original heap and still holds a dict. -/
theorem deepCopy_obj (fuel : Nat) (h : Heap) (a : Addr) (h2 : Heap) (a2 : Addr)
    (fs : List (Str × Addr)) (hr : deepCopyH fuel h a = some (h2, a2))
    (hn : h[a]? = some (HNode.obj fs)) :
    (∃ fs2, h2[a2]? = some (HNode.obj fs2)) ∧ h.length ≤ a2 := by
  cases fuel with
  | zero => simp [deepCopyH] at hr
  | succ fuel =>
    cases hc : deepCopyFieldsH fuel h fs with
    | none => simp [deepCopyH, hn, hc] at hr
    | some pr =>
      obtain ⟨h1, fs1⟩ := pr
      simp only [deepCopyH, hn, hc, Option.some.injEq, Prod.mk.injEq] at hr
      obtain ⟨hh2, ha2⟩ := hr
      subst hh2
      subst ha2
      refine ⟨⟨fs1, by simp⟩, ?_⟩
      exact ((deepCopy_frame fuel).2.2 h fs h1 fs1 hc).length_le

/-- Populating a dict node allocates a fresh dict node: the returned root is
outside the input heap. -/
theorem populate_obj_fresh (env : Env) (fuel : Nat) (h : Heap) (a : Addr) (h2 : Heap)
    (r : Addr) (fs : List (Str × Addr)) (hr : populate_dataH env fuel h a = some (h2, r))
    (hn : h[a]? = some (HNode.obj fs)) : h.length ≤ r := by
  cases fuel with
  | zero => simp [populate_dataH] at hr
  | succ fuel =>
    cases hc : populate_fieldsH env fuel h fs with
    | none => simp [populate_dataH, hn, hc] at hr
    | some pr =>
      obtain ⟨h1, fs1⟩ := pr
      simp only [populate_dataH, hn, hc, Option.some.injEq, Prod.mk.injEq] at hr
      obtain ⟨hh2, hrr⟩ := hr
      subst hrr
      exact ((populate_frame env fuel).2.2 h fs h1 fs1 hc).length_le

/-- Claim C10: `get_resume_data` never mutates the module-level
`RESUME_DATA_TEMPLATE`.  At the heap level: a successful
`get_resume_dataH` run only extends the heap, so every address of the input
heap — in particular the whole template object graph — holds exactly the node
it held before, after any number of loads; and when the template root is a
dict, the returned knowledge base root is a freshly allocated structure, not
the template. -/
theorem c10_template_not_mutated (env : Env) (fuel : Nat) (h : Heap) (template : Addr)
    (h2 : Heap) (root : Addr)
    (hrun : get_resume_dataH env fuel h template = some (h2, root)) :
    h <+: h2 ∧
    (∀ i : Nat, i < h.length → h2[i]? = h[i]?) ∧
    (∀ fs, h[template]? = some (HNode.obj fs) → h.length ≤ root) := by
  unfold get_resume_dataH at hrun
  cases hcopy : deepCopyH fuel h template with
  | none => rw [hcopy] at hrun; exact absurd hrun (by simp)
  | some pr =>
    obtain ⟨h1, a1⟩ := pr
    rw [hcopy] at hrun
    have hpre1 : h <+: h1 := (deepCopy_frame fuel).1 h template h1 a1 hcopy
    have hpre2 : h1 <+: h2 := (populate_frame env fuel).1 h1 a1 h2 root hrun
    have hpre : h <+: h2 := hpre1.trans hpre2
    refine ⟨hpre, ?_, ?_⟩
    · intro i hi
      obtain ⟨t, ht⟩ := hpre
      rw [← ht]
      exact List.getElem?_append_left hi
    · intro fs hfs
      obtain ⟨⟨fs1, hobj1⟩, hlen1⟩ := deepCopy_obj fuel h template h1 a1 fs hcopy hfs
      have := populate_obj_fresh env fuel h1 a1 h2 root fs1 hrun hobj1
      exact le_trans hpre1.length_le this

/-! ## The claims -/

/-- Claim C9: `GPTService.get_completion` is total — for every prompt, when the
underlying completion API call raises, the method returns the literal error
string instead of propagating the exception; on success it returns the
stripped completion text.  A provider failure therefore reaches the caller as
an ordinary string, never as an exception. -/
theorem c9_get_completion_total (prompt : Str) :
    get_completion prompt .fail = lit "[Error: Unable to get response from GPT API]" ∧
    ∀ text, get_completion prompt (.ok text) = pyStrip text :=
  ⟨rfl, fun _ => rfl⟩

/-- Claim C4: for every question and every provider state, `answer_question`
returns an ordinary `(text, confidence, source)` triple and never lets an
exception reach its caller: each sub-strategy failure is absorbed by one of
the embedded `try/except` blocks. -/
theorem c4_resolver_total (kb : KnowledgeBase) (ml : MLOutcome) (api : ApiOutcome) (q : Str) :
    ∃ r, answer_question kb ml api q = Except.ok r :=
  ⟨_, answer_question_eq kb ml api q⟩

/-- Claim C3 (counterexample): submitting feedback for an answer id that does
not exist (id 1 against an empty database) is rejected as HTTP 500, not as the
404 / `NotFoundError` client error the claim states, and no feedback row is
persisted. -/
theorem c3_counterexample :
    submit_feedback ⟨[], [], 1⟩ ⟨1, 5, true, none⟩ = (⟨[], [], 1⟩, HttpReply.error 500) ∧
    HttpReply.error 500 ≠ HttpReply.error 404 ∧
    (submit_feedback ⟨[], [], 1⟩ ⟨1, 5, true, none⟩).1.feedback = [] := by
  refine ⟨by decide, by decide, by decide⟩

/-- Claim C3 as amended: `store_feedback` performs no existence check of its
own; with an `answer_id` matching no answer row the PostgreSQL foreign-key
constraint makes the commit raise `IntegrityError`, which the `/feedback`
handler surfaces as HTTP 500 (a server error, never 404) while persisting
nothing — no dangling feedback row is created; with an existing id a feedback
row keyed to that id is appended and its id returned. -/
theorem c3_amended (db : ConciergeDB) (req : FeedbackRequest) :
    submit_feedback db req =
      (if db.answers.any (fun a => a.id == req.answer_id) then
        ({ db with
            feedback := db.feedback ++
              [⟨db.next_feedback_id, req.answer_id, req.score, req.was_helpful, req.comment⟩],
            next_feedback_id := db.next_feedback_id + 1 },
         HttpReply.ok db.next_feedback_id)
      else (db, HttpReply.error 500)) ∧
    (submit_feedback db req).2 ≠ HttpReply.error 404 := by
  unfold submit_feedback store_feedback
  by_cases hc : db.answers.any (fun a => a.id == req.answer_id) = true
  · rw [if_pos hc, if_pos hc]
    exact ⟨rfl, by simp⟩
  · rw [if_neg hc, if_neg hc]
    exact ⟨rfl, by simp⟩

/-- Claim C8: in the knowledge-base loader, every template string bearing the
`ENV::` sentinel prefix followed by a variable name is substituted with the
environment variable's value when set and with the visible placeholder
`<NAME not set>` when absent; every string without the prefix is returned
unchanged; and dicts and lists are traversed recursively. -/
theorem c8_env_substitution (env : Env) (name s : Str)
    (hname : pyIn (lit "::") name = false)
    (hs : pyStartsWith (lit "ENV::") s = false) :
    (load_and_populate_data env (.str (lit "ENV::" ++ name)) =
      .str (match env name with
            | none => lit "<" ++ name ++ lit " not set>"
            | some value => value)) ∧
    (load_and_populate_data env (.str s) = .str s) ∧
    (∀ fields, load_and_populate_data env (.obj fields) = .obj (load_and_populate_fields env fields)) ∧
    (∀ k v fields, load_and_populate_fields env ((k, v) :: fields) =
      (k, load_and_populate_data env v) :: load_and_populate_fields env fields) ∧
    (∀ elems, load_and_populate_data env (.arr elems) = .arr (load_and_populate_list env elems)) ∧
    (∀ v elems, load_and_populate_list env (v :: elems) =
      load_and_populate_data env v :: load_and_populate_list env elems) := by
  refine ⟨?_, ?_, fun _ => rfl, fun _ _ _ => rfl, fun _ => rfl, fun _ _ => rfl⟩
  · have hsplit : pySplit (lit "::") (lit "ENV::" ++ name) = [lit "ENV", name] :=
      pySplit_env name (of_decide_eq_false hname)
    have hpre : pyStartsWith (lit "ENV::") (lit "ENV::" ++ name) = true :=
      decide_eq_true (List.prefix_append (lit "ENV::") name)
    show (if pyStartsWith (lit "ENV::") (lit "ENV::" ++ name) = true
          then JValue.str (env_substitution env (lit "ENV::" ++ name))
          else JValue.str (lit "ENV::" ++ name)) = _
    rw [hpre, if_pos rfl]
    unfold env_substitution
    rw [hsplit]
    rfl
  · show (if pyStartsWith (lit "ENV::") s = true
          then JValue.str (env_substitution env s)
          else JValue.str s) = _
    rw [hs]
    simp

/-- Claim C1 (counterexample): the confidence invariant's "confidence 1.0 only
from a structured match" direction fails — when the extractive model reports
score 1.0 on a question no structured rule matches, the resolver returns
confidence 1.0 with source `qa_model`, not `structured`. -/
theorem c1_counterexample :
    answer_question resumeData (.result (lit "Frank is great") 1) (.ok (lit "hi"))
        (lit "tell me a joke") =
      Except.ok (lit "Frank is great\n\n(This answer is based on structured data.)", 1,
        lit "qa_model") ∧
    lit "qa_model" ≠ lit "structured" := by
  refine ⟨by decide, by decide⟩

/-- Claim C1 as amended: in `answer_question`, a structured match always
carries confidence 1.0, and conversely confidence 1.0 comes from a structured
match unless the accepted extractive result itself reported score 1.0; the
per-source confidences are ordered down the chain — structured 1.0, accepted
extractive above the 0.7 threshold, generative fallback 0.6, structured
re-use fallback 0.5, terminal/error messages 0.0. -/
theorem c1_amended (kb : KnowledgeBase) (ml : MLOutcome) (api : ApiOutcome) (q : Str)
    (r : Str × ℚ × Str) (h : answer_question kb ml api q = Except.ok r) :
    (r.2.2 = lit "structured" → r.2.1 = 1) ∧
    (r.2.1 = 1 → r.2.2 = lit "structured" ∨ (r.2.2 = lit "qa_model" ∧ ∃ a, ml = .result a 1)) ∧
    (r.2.2 = lit "qa_model" → ∃ a s, ml = .result a s ∧ r.2.1 = s ∧ mkRat 7 10 < s) ∧
    (r.2.2 = lit "gpt" → r.2.1 = mkRat 6 10) ∧
    (r.2.2 = lit "structured_fallback" → r.2.1 = mkRat 5 10) ∧
    ((r.2.2 = lit "fallback" ∨ r.2.2 = lit "error") → r.2.1 = 0) ∧
    ((1 : ℚ) > mkRat 7 10 ∧ mkRat 7 10 > mkRat 6 10 ∧ mkRat 6 10 > mkRat 5 10 ∧ mkRat 5 10 > 0) := by
  rw [answer_question_eq] at h
  simp only [Except.ok.injEq] at h
  by_cases hs : (qa_get_structured_answer kb q).1 ≠ [] ∧ (qa_get_structured_answer kb q).2 > mkRat 7 10
  · rw [if_pos hs] at h
    have hp2 : (qa_get_structured_answer kb q).2 = 1 := by
      rcases qa_structured_confidence kb q with h1 | h1
      · exact h1
      · exact absurd (congrArg Prod.fst h1) hs.1
    have h21 : r.2.1 = (qa_get_structured_answer kb q).2 := by rw [← h]
    have h22 : r.2.2 = lit "structured" := by rw [← h]
    refine ⟨fun _ => by rw [h21]; exact hp2, fun _ => Or.inl h22, ?_, ?_, ?_, ?_, by decide⟩
    · intro h2; rw [h22] at h2; exact absurd h2 (by decide)
    · intro h2; rw [h22] at h2; exact absurd h2 (by decide)
    · intro h2; rw [h22] at h2; exact absurd h2 (by decide)
    · rintro (h2 | h2) <;> (rw [h22] at h2; exact absurd h2 (by decide))
  · rw [if_neg hs] at h
    cases ml with
    | unavailable =>
      have h21 : r.2.1 = mkRat 6 10 := by rw [← h]
      have h22 : r.2.2 = lit "gpt" := by rw [← h]
      refine ⟨?_, ?_, ?_, fun _ => h21, ?_, ?_, by decide⟩
      · intro h2; rw [h22] at h2; exact absurd h2 (by decide)
      · intro h1; rw [h21] at h1; exact absurd h1 (by decide)
      · intro h2; rw [h22] at h2; exact absurd h2 (by decide)
      · intro h2; rw [h22] at h2; exact absurd h2 (by decide)
      · rintro (h2 | h2) <;> (rw [h22] at h2; exact absurd h2 (by decide))
    | raises =>
      have h21 : r.2.1 = mkRat 6 10 := by rw [← h]
      have h22 : r.2.2 = lit "gpt" := by rw [← h]
      refine ⟨?_, ?_, ?_, fun _ => h21, ?_, ?_, by decide⟩
      · intro h2; rw [h22] at h2; exact absurd h2 (by decide)
      · intro h1; rw [h21] at h1; exact absurd h1 (by decide)
      · intro h2; rw [h22] at h2; exact absurd h2 (by decide)
      · intro h2; rw [h22] at h2; exact absurd h2 (by decide)
      · rintro (h2 | h2) <;> (rw [h22] at h2; exact absurd h2 (by decide))
    | result answer score =>
      dsimp only at h
      by_cases hm : pyStrip answer ≠ [] ∧ score > mkRat 7 10
      · rw [if_pos hm] at h
        have h21 : r.2.1 = score := by rw [← h]
        have h22 : r.2.2 = lit "qa_model" := by rw [← h]
        refine ⟨?_, ?_, fun _ => ⟨answer, score, rfl, h21, hm.2⟩, ?_, ?_, ?_, by decide⟩
        · intro h2; rw [h22] at h2; exact absurd h2 (by decide)
        · intro h1
          rw [h21] at h1
          exact Or.inr ⟨h22, ⟨answer, by rw [h1]⟩⟩
        · intro h2; rw [h22] at h2; exact absurd h2 (by decide)
        · intro h2; rw [h22] at h2; exact absurd h2 (by decide)
        · rintro (h2 | h2) <;> (rw [h22] at h2; exact absurd h2 (by decide))
      · rw [if_neg hm] at h
        have h21 : r.2.1 = mkRat 6 10 := by rw [← h]
        have h22 : r.2.2 = lit "gpt" := by rw [← h]
        refine ⟨?_, ?_, ?_, fun _ => h21, ?_, ?_, by decide⟩
        · intro h2; rw [h22] at h2; exact absurd h2 (by decide)
        · intro h1; rw [h21] at h1; exact absurd h1 (by decide)
        · intro h2; rw [h22] at h2; exact absurd h2 (by decide)
        · intro h2; rw [h22] at h2; exact absurd h2 (by decide)
        · rintro (h2 | h2) <;> (rw [h22] at h2; exact absurd h2 (by decide))

/-- Witness for C1's amended theorem at a concrete configuration: no
structured match, extractive unavailable, GPT succeeding with "hi". -/
theorem c1_witness :
    ((lit "gpt" = lit "structured" → (mkRat 6 10 : ℚ) = 1) ∧
     ((mkRat 6 10 : ℚ) = 1 →
        lit "gpt" = lit "structured" ∨
        (lit "gpt" = lit "qa_model" ∧ ∃ a, MLOutcome.unavailable = MLOutcome.result a 1)) ∧
     (lit "gpt" = lit "qa_model" →
        ∃ a s, MLOutcome.unavailable = MLOutcome.result a s ∧ (mkRat 6 10 : ℚ) = s ∧ mkRat 7 10 < s) ∧
     (lit "gpt" = lit "gpt" → (mkRat 6 10 : ℚ) = mkRat 6 10) ∧
     (lit "gpt" = lit "structured_fallback" → (mkRat 6 10 : ℚ) = mkRat 5 10) ∧
     ((lit "gpt" = lit "fallback" ∨ lit "gpt" = lit "error") → (mkRat 6 10 : ℚ) = 0) ∧
     ((1 : ℚ) > mkRat 7 10 ∧ mkRat 7 10 > mkRat 6 10 ∧ mkRat 6 10 > mkRat 5 10 ∧ mkRat 5 10 > 0)) :=
  c1_amended resumeData .unavailable (.ok (lit "hi")) (lit "tell me a joke")
    (lit "hi\n\n(This response has low confidence. Please verify details.)", mkRat 6 10, lit "gpt")
    (by decide)

/-- Claim C2 (counterexample): a failing generative call is not skipped in
favour of the next/terminal strategy — the resolver returns the GPT error
marker as an ordinary `gpt`-sourced answer at confidence 0.6, so the failure
does reach the caller inside the message text. -/
theorem c2_counterexample :
    answer_question resumeData .unavailable .fail (lit "Tell me a joke") =
      Except.ok (lit "[Error: Unable to get response from GPT API]\n\n(This response has low confidence. Please verify details.)",
        mkRat 6 10, lit "gpt") ∧
    pyIn (lit "[Error:")
      (lit "[Error: Unable to get response from GPT API]\n\n(This response has low confidence. Please verify details.)") = true ∧
    lit "gpt" ≠ lit "fallback" := by
  refine ⟨by decide, by decide, by decide⟩

/-- Claim C2 as amended: an extractive stage that raises is skipped — the
result is the same as with the stage absent; a generative API failure is not
skipped but converted by `get_completion` into the error-marker string,
returned as a normal `gpt` answer at confidence 0.6; and in the `app.py`
variant an unconfigured GPT service degrades a rule-less question to the
static terminal message at 0.5.  No failure propagates to the caller as an
exception. -/
theorem c2_amended (kb : KnowledgeBase) (api : ApiOutcome) (q q2 : Str)
    (h1 : qa_get_structured_answer kb q = ([], 0))
    (h2 : firstMatch (appRules kb) (normalizeApp q2) = none) :
    answer_question kb .raises api q = answer_question kb .unavailable api q ∧
    answer_question kb .unavailable .fail q =
      Except.ok (add_confidence_note (lit "[Error: Unable to get response from GPT API]")
          (mkRat 6 10) (lit "GPT fallback"), mkRat 6 10, lit "gpt") ∧
    app_get_structured_answer kb false api q2 =
      (lit "I can provide information about Frank's certifications, skills, experience, current role, or contact details. Please ask about any of these topics.",
        mkRat 5 10) := by
  refine ⟨?_, ?_, ?_⟩
  · rw [answer_question_eq kb .raises api q, answer_question_eq kb .unavailable api q]
  · rw [answer_question_eq]
    simp only [h1]
    rfl
  · rw [app_resolver_as_rule_table, h2]
    rfl

/-- Witness for C2's amended theorem: the knowledge base modelled from the
template, a question neither resolver matches, GPT unavailable. -/
theorem c2_witness :
    (answer_question resumeData .raises (.ok (lit "hi")) (lit "tell me a joke") =
      answer_question resumeData .unavailable (.ok (lit "hi")) (lit "tell me a joke")) ∧
    (answer_question resumeData .unavailable .fail (lit "tell me a joke") =
      Except.ok (add_confidence_note (lit "[Error: Unable to get response from GPT API]")
          (mkRat 6 10) (lit "GPT fallback"), mkRat 6 10, lit "gpt")) ∧
    (app_get_structured_answer resumeData false (.ok (lit "hi")) (lit "What's the meaning of life?") =
      (lit "I can provide information about Frank's certifications, skills, experience, current role, or contact details. Please ask about any of these topics.",
        mkRat 5 10)) :=
  c2_amended resumeData (.ok (lit "hi")) (lit "tell me a joke") (lit "What's the meaning of life?")
    (by decide) (by decide)

/-- Claim C5 (counterexample): in the canonical `qa_model` resolver, a
question with no structured match and no available provider does not produce
the terminal message at confidence 0.5 with source `none` — the generative
stage is always attempted, and its failure surfaces as the error-marker text
at 0.6 with source `gpt`. -/
theorem c5_counterexample :
    answer_question resumeData .unavailable .fail (lit "What's the meaning of life?") =
      Except.ok (lit "[Error: Unable to get response from GPT API]\n\n(This response has low confidence. Please verify details.)",
        mkRat 6 10, lit "gpt") ∧
    (mkRat 6 10 : ℚ) ≠ mkRat 5 10 ∧
    lit "gpt" ≠ lit "none" := by
  refine ⟨by decide, by decide, by decide⟩

/-- Claim C5 as amended: the terminal-fallback behaviour the claim describes
belongs to the `app.py` variant — with GPT disabled, every question matching
no structured rule yields the static message listing the supported topics at
confidence exactly 0.5 (this variant returns no source tag; the `qa_model`
variant never takes a 0.5/`none` terminal exit, see the counterexample). -/
theorem c5_amended (kb : KnowledgeBase) (api : ApiOutcome) (q : Str)
    (h : firstMatch (appRules kb) (normalizeApp q) = none) :
    app_get_structured_answer kb false api q =
      (lit "I can provide information about Frank's certifications, skills, experience, current role, or contact details. Please ask about any of these topics.",
        mkRat 5 10) := by
  rw [app_resolver_as_rule_table, h]
  rfl

/-- Witness for C5's amended theorem. -/
theorem c5_witness :
    app_get_structured_answer resumeData false (.ok (lit "hi")) (lit "Tell me a joke") =
      (lit "I can provide information about Frank's certifications, skills, experience, current role, or contact details. Please ask about any of these topics.",
        mkRat 5 10) :=
  c5_amended resumeData (.ok (lit "hi")) (lit "Tell me a joke") (by decide)

/-- Claim C6: `app.py`'s structured matcher is the first-match-wins evaluation
of the ordered canonical rule table (most-recent-past-role, certifications,
current role, location, contact, skills with category sub-dispatch, experience
with topic sub-dispatch); for a question matching several rules, the earliest
matching rule answers. -/
theorem c6_first_match_order (kb : KnowledgeBase) (gpt_enabled : Bool) (api : ApiOutcome)
    (question : Str) (i : Nat) (r : TopicRule) (q2 : Str)
    (hr : (appRules kb)[i]? = some r)
    (hm : ruleMatches r q2 = true)
    (hprev : ∀ (j : Nat) (rj : TopicRule), j < i → (appRules kb)[j]? = some rj →
      ruleMatches rj q2 = false) :
    (app_get_structured_answer kb gpt_enabled api question =
      match firstMatch (appRules kb) (normalizeApp question) with
      | some p => p
      | none => app_gpt_fallback kb gpt_enabled api question) ∧
    firstMatch (appRules kb) q2 = some (r.respond q2) :=
  ⟨app_resolver_as_rule_table kb gpt_enabled api question,
   firstMatch_earliest (appRules kb) q2 i r hr hm hprev⟩

/-- Witness for C6: the question `"cert years"` matches both the
certifications rule (index 1) and the experience rule (index 6); the
certifications rule, being earlier, answers. -/
theorem c6_witness :
    (app_get_structured_answer resumeData false (.ok (lit "hi")) (lit "what do you do for work?") =
      match firstMatch (appRules resumeData) (normalizeApp (lit "what do you do for work?")) with
      | some p => p
      | none => app_gpt_fallback resumeData false (.ok (lit "hi")) (lit "what do you do for work?")) ∧
    firstMatch (appRules resumeData) (lit "cert years") =
      some ((⟨[lit "certification", lit "certified", lit "cert"],
        app_certifications resumeData⟩ : TopicRule).respond (lit "cert years")) :=
  c6_first_match_order resumeData false (.ok (lit "hi")) (lit "what do you do for work?") 1
    ⟨[lit "certification", lit "certified", lit "cert"], app_certifications resumeData⟩
    (lit "cert years") rfl (by decide)
    (by
      intro j rj hj hget
      have hj0 : j = 0 := by omega
      subst hj0
      have h0 : (appRules resumeData)[0]? =
          some (⟨[lit "last job", lit "previous job", lit "past job", lit "former job"],
            app_job_history resumeData⟩ : TopicRule) := rfl
      rw [h0] at hget
      have := (Option.some.injEq _ _).mp hget
      rw [← this]
      decide)

set_option maxRecDepth 8000 in
set_option maxHeartbeats 1000000 in
/-- Claim C7 (counterexample): for "What certifications do you have?", the
`app.py` matcher does fire the certifications rule at confidence 1.0, but its
output lists each certification with its issuer only — the years recorded in
the knowledge base (2023 and 2022) appear nowhere in the answer, contradicting
the claim that every certification is enumerated with issuer and year. -/
theorem c7_counterexample :
    app_get_structured_answer resumeData false .fail (lit "What certifications do you have?") =
      (lit "Frank holds the following certifications:\n• Microsoft Azure Fundamentals (Microsoft)\n• Certified Scrum Master (Scrum Alliance)", 1) ∧
    resumeData.certifications.map (fun cert => cert.year_obtained) = [lit "2023", lit "2022"] ∧
    pyIn (lit "2023")
      (lit "Frank holds the following certifications:\n• Microsoft Azure Fundamentals (Microsoft)\n• Certified Scrum Master (Scrum Alliance)") = false ∧
    pyIn (lit "2022")
      (lit "Frank holds the following certifications:\n• Microsoft Azure Fundamentals (Microsoft)\n• Certified Scrum Master (Scrum Alliance)") = false := by
  refine ⟨by decide, by decide, by decide, by decide⟩

set_option maxRecDepth 8000 in
set_option maxHeartbeats 1000000 in
/-- Claim C7 as amended: for "What certifications do you have?", the `app.py`
normalizer maps "you" to the subject ("do frank have") and the certifications
rule answers at confidence 1.0 with name and issuer per certification (year
omitted); the `qa_model` resolver (which has no pronoun normalizer) matches
its predefined certifications entry and answers at confidence 1.0 with source
`structured`, enumerating every certification with issuer and year. -/
theorem c7_amended :
    (∀ (gpt_enabled : Bool) (api : ApiOutcome),
      app_get_structured_answer resumeData gpt_enabled api (lit "What certifications do you have?") =
        (lit "Frank holds the following certifications:\n• Microsoft Azure Fundamentals (Microsoft)\n• Certified Scrum Master (Scrum Alliance)", 1)) ∧
    pyIn (lit "do frank have") (normalizeApp (lit "What certifications do you have?")) = true ∧
    (∀ (ml : MLOutcome) (api : ApiOutcome),
      answer_question resumeData ml api (lit "What certifications do you have?") =
        Except.ok (lit "Frank holds the following certifications:\n• Microsoft Azure Fundamentals (Microsoft, 2023) — Status: Active\n• Certified Scrum Master (Scrum Alliance, 2022) — Status: Active\n\n(This answer is based on structured data.)",
          1, lit "structured")) := by
  refine ⟨fun gpt_enabled api => ?_, by decide, fun ml api => ?_⟩
  · rw [app_resolver_as_rule_table]
    rw [show firstMatch (appRules resumeData) (normalizeApp (lit "What certifications do you have?")) =
      some (lit "Frank holds the following certifications:\n• Microsoft Azure Fundamentals (Microsoft)\n• Certified Scrum Master (Scrum Alliance)", 1) from by decide]
  · rw [answer_question_eq]
    rw [show qa_get_structured_answer resumeData (lit "What certifications do you have?") =
      (lit "Frank holds the following certifications:\n• Microsoft Azure Fundamentals (Microsoft, 2023) — Status: Active\n• Certified Scrum Master (Scrum Alliance, 2022) — Status: Active", 1) from by decide]
    rfl

/-- Witness for C10 on a concrete two-node template heap: address 0 holds the
placeholder string `ENV::X`, address 1 the template dict; a load with fuel 9
extends the heap to five nodes with root 4, leaving addresses 0 and 1
untouched. -/
theorem c10_witness :
    ([HNode.str (lit "ENV::X"), HNode.obj [(lit "name", 0)]] : Heap) <+:
      [HNode.str (lit "ENV::X"), HNode.obj [(lit "name", 0)], HNode.obj [(lit "name", 0)],
       HNode.str (lit "<X not set>"), HNode.obj [(lit "name", 3)]] ∧
    (∀ i : Nat, i < ([HNode.str (lit "ENV::X"), HNode.obj [(lit "name", 0)]] : Heap).length →
      ([HNode.str (lit "ENV::X"), HNode.obj [(lit "name", 0)], HNode.obj [(lit "name", 0)],
        HNode.str (lit "<X not set>"), HNode.obj [(lit "name", 3)]] : Heap)[i]? =
      ([HNode.str (lit "ENV::X"), HNode.obj [(lit "name", 0)]] : Heap)[i]?) ∧
    (∀ fs, ([HNode.str (lit "ENV::X"), HNode.obj [(lit "name", 0)]] : Heap)[1]? =
        some (HNode.obj fs) →
      ([HNode.str (lit "ENV::X"), HNode.obj [(lit "name", 0)]] : Heap).length ≤ 4) :=
  c10_template_not_mutated (fun _ => none) 9
    [HNode.str (lit "ENV::X"), HNode.obj [(lit "name", 0)]] 1
    [HNode.str (lit "ENV::X"), HNode.obj [(lit "name", 0)], HNode.obj [(lit "name", 0)],
     HNode.str (lit "<X not set>"), HNode.obj [(lit "name", 3)]] 4
    (by decide)

/-- Witness for C8: the loader substitutes a set variable and passes a plain
string through unchanged. -/
theorem c8_witness :
    (load_and_populate_data
        (fun n => if n = lit "CONTACT_NAME" then some (lit "Frank") else none)
        (.str (lit "ENV::" ++ lit "CONTACT_NAME")) = .str (lit "Frank")) ∧
    (load_and_populate_data
        (fun n => if n = lit "CONTACT_NAME" then some (lit "Frank") else none)
        (.str (lit "hello")) = .str (lit "hello")) :=
  ⟨(c8_env_substitution (fun n => if n = lit "CONTACT_NAME" then some (lit "Frank") else none)
      (lit "CONTACT_NAME") (lit "hello") (by decide) (by decide)).1,
   (c8_env_substitution (fun n => if n = lit "CONTACT_NAME" then some (lit "Frank") else none)
      (lit "CONTACT_NAME") (lit "hello") (by decide) (by decide)).2.1⟩
